import Mathlib

/-!
# Verification of the YABOOK sync coordination subsystem

Shallow embedding of `src/backend/services/sync_coordinator.py`,
`src/backend/services/photoprism_adapter.py` and `src/backend/models.py`.

Modelling conventions, stated once here:
* The Mongo document store is modelled as in-memory lists of structures
  (`DB`); `find_one` is `List.find?` (first match in natural order),
  `update_one` updates the first matching element, `update_many` all
  matching elements, `insert_one` appends.
* Wall-clock time is a `Nat` parameter `now`; durations measured with
  `datetime.utcnow()` are not modelled, so `processing_time_ms` is
  recorded as `some 0` wherever the code writes a measured duration.
* The network behaviour of `PhotoPrismAdapter.upload_photo` is abstracted
  as a function `uploads : Nat → UploadOutcome` giving, per attempt index,
  whether the call returned a truthy result dict, returned `None` (or a
  falsy dict), or raised an exception.
* Random `uuid4` identifiers are passed in as explicit parameters
  (`event_id`).
* Opaque `Dict[str, Any]` payloads are modelled as association lists of
  strings; `faces`/`metadata` fields of `Photo`, which no modelled
  operation reads or writes, are omitted.
* Photo documents carry two extra keys, `sync_version` and `sync_errors`,
  that are not fields of `models.Photo` but are present in the documents
  the repository seeds (`seed_database.py`) and that `server.py` writes;
  `update_one` with `$set` is key-level, so the coordinator's updates
  leave them untouched.  They are included to settle the spec claims that
  mention them.
-/

namespace Yabook

/-- `PhotoStatus` from `models.py` (lines 25-28): the only photo status
values the coordinator's data model admits. -/
inductive PhotoStatus
  | pending
  | synced
  | failed
deriving DecidableEq, Repr

/-- `SyncEventType` from `models.py`. -/
inductive SyncEventType
  | upload
  | updateEv
  | deleteEv
  | reconcileEv
deriving DecidableEq, Repr

/-- `SyncEventStatus` from `models.py`. -/
inductive SyncEventStatus
  | pending
  | processing
  | success
  | failed
deriving DecidableEq, Repr

/-- `PhotoPrismInstanceStatus` from `models.py`. -/
inductive InstanceStatus
  | active
  | inactive
  | maintenance
deriving DecidableEq, Repr

/-- A photo document, after `models.Photo` (lines 69-86) plus the two
document-level keys `sync_version`/`sync_errors` described in the header. -/
structure Photo where
  id : String
  school_id : String
  filename : String
  original_path : String
  file_size : Nat := 0
  mime_type : String := ""
  photoprism_uuid : Option String := none
  photoprism_filename : Option String := none
  status : PhotoStatus := .pending
  title : Option String := none
  description : Option String := none
  keywords : List String := []
  uploaded_by : Option String := none
  created_at : Nat := 0
  updated_at : Nat := 0
  sync_version : Option Int := none
  sync_errors : List String := []
deriving DecidableEq, Repr

/-- A PhotoPrism instance document, after `models.PhotoPrismInstance`. -/
structure PhotoPrismInstance where
  id : String
  school_id : String
  instance_name : String := ""
  base_url : String := ""
  admin_username : String := ""
  admin_password_hash : String := ""
  api_token : Option String := none
  status : InstanceStatus := .active
  created_at : Nat := 0
  updated_at : Nat := 0
deriving DecidableEq, Repr

/-- A sync event document, after `models.PhotoPrismSyncEvent`. -/
structure PhotoPrismSyncEvent where
  id : String
  photo_id : String
  instance_id : String
  event_type : SyncEventType
  event_status : SyncEventStatus := .pending
  processing_time_ms : Option Nat := none
  error_details : Option String := none
  payload : List (String × String) := []
  created_at : Nat := 0
  updated_at : Nat := 0
deriving DecidableEq, Repr

/-- The document store: the three collections the coordinator touches. -/
structure DB where
  photos : List Photo := []
  photoprism_instances : List PhotoPrismInstance := []
  photoprism_sync_events : List PhotoPrismSyncEvent := []
deriving DecidableEq, Repr

/-- Mongo `update_one`: rewrite the first element satisfying `p`. -/
def updateFirst (p : α → Bool) (f : α → α) : List α → List α
  | [] => []
  | x :: xs => if p x then f x :: xs else x :: updateFirst p f xs

/-- Mongo `update_many`: rewrite every element satisfying `p`. -/
def updateAll (p : α → Bool) (f : α → α) (l : List α) : List α :=
  l.map fun x => if p x then f x else x

/-- The decoded JSON of a successful upload response; the coordinator reads
keys `uuid` and `filename` with `dict.get` (absent key gives `None`). -/
structure UploadResult where
  uuid : Option String := none
  filename : Option String := none
deriving DecidableEq, Repr

/-- Outcome of one `adapter.upload_photo` call, per attempt:
`ok r` - returned a truthy result dict, `failedUp` - returned `None` (or a
falsy dict, both falsy in `if result:`), `exn msg` - raised an exception. -/
inductive UploadOutcome
  | ok (r : UploadResult)
  | failedUp
  | exn (msg : String)
deriving DecidableEq, Repr

/-- `self.retry_delays = [5, 15, 60]` (seconds), `sync_coordinator.py` line 25. -/
def retry_delays : List Nat := [5, 15, 60]

/-- `self.max_retry_attempts = 3`, `sync_coordinator.py` line 24. -/
def max_retry_attempts : Nat := 3

/-- Observable steps of one `sync_photo_to_photoprism` call:
`attemptStart n` - attempt `n` begins (the sync event is set to
PROCESSING), `sleep d` - `asyncio.sleep d` between attempts,
`statusWrite s` - the photo's `status` field is written with `s`. -/
inductive TraceEv
  | attemptStart (n : Nat)
  | sleep (d : Nat)
  | statusWrite (s : PhotoStatus)
deriving DecidableEq, Repr

/-- Result of a `sync_photo_to_photoprism` call: final store, returned
boolean, and the trace of observable steps. -/
structure SyncOut where
  db : DB
  ok : Bool
  trace : List TraceEv
deriving DecidableEq, Repr

/-- Success-path `$set` on the photo (`sync_coordinator.py` lines 90-100):
`status`, `photoprism_uuid`, `photoprism_filename`, `updated_at`. -/
def photoSuccessUpdate (now : Nat) (r : UploadResult) (p : Photo) : Photo :=
  { p with status := .synced, photoprism_uuid := r.uuid,
           photoprism_filename := r.filename, updated_at := now }

/-- Final-failure `$set` on the photo (lines 123-126 and 153-156):
`status`, `updated_at` only. -/
def photoFailUpdate (now : Nat) (p : Photo) : Photo :=
  { p with status := .failed, updated_at := now }

/-- Per-attempt `$set` on the sync event (lines 78-81). -/
def eventProcessingUpdate (now : Nat) (e : PhotoPrismSyncEvent) : PhotoPrismSyncEvent :=
  { e with event_status := .processing, updated_at := now }

/-- Success `$set` on the sync event (lines 102-111). -/
def eventSuccessUpdate (now : Nat) (e : PhotoPrismSyncEvent) : PhotoPrismSyncEvent :=
  { e with event_status := .success, processing_time_ms := some 0, updated_at := now }

/-- Final-failure `$set` on the sync event (lines 128-138 and 158-168). -/
def eventFailUpdate (now : Nat) (msg : String) (e : PhotoPrismSyncEvent) : PhotoPrismSyncEvent :=
  { e with event_status := .failed, processing_time_ms := some 0,
           error_details := some msg, updated_at := now }

/-- Rewrite the photo with the given id (first match) in the store. -/
def dbUpdatePhoto (photo_id : String) (f : Photo → Photo) (db : DB) : DB :=
  { db with photos := updateFirst (fun p => p.id == photo_id) f db.photos }

/-- Rewrite the sync event with the given id (first match) in the store. -/
def dbUpdateEvent (event_id : String) (f : PhotoPrismSyncEvent → PhotoPrismSyncEvent) (db : DB) : DB :=
  { db with photoprism_sync_events :=
      updateFirst (fun e => e.id == event_id) f db.photoprism_sync_events }

/-- The retry loop of `sync_photo_to_photoprism` (`for attempt in
range(self.max_retry_attempts)`, lines 73-171), over the list of remaining
attempt indices.  Falling off the list is the `return False` at line 177. -/
def syncLoop (uploads : Nat → UploadOutcome) (photo_id event_id : String) (now : Nat) :
    List Nat → DB → List TraceEv → SyncOut
  | [], db, tr => ⟨db, false, tr⟩
  | attempt :: rest, db, tr =>
    let db1 := dbUpdateEvent event_id (eventProcessingUpdate now) db
    let tr1 := tr ++ [.attemptStart attempt]
    match uploads attempt with
    | .ok r =>
      let db2 := dbUpdatePhoto photo_id (photoSuccessUpdate now r) db1
      let db3 := dbUpdateEvent event_id (eventSuccessUpdate now) db2
      ⟨db3, true, tr1 ++ [.statusWrite .synced]⟩
    | .failedUp =>
      if attempt < max_retry_attempts - 1 then
        let d := retry_delays.getD (min attempt (retry_delays.length - 1)) 0
        syncLoop uploads photo_id event_id now rest db1 (tr1 ++ [.sleep d])
      else
        let db2 := dbUpdatePhoto photo_id (photoFailUpdate now) db1
        let db3 := dbUpdateEvent event_id
          (eventFailUpdate now "Upload failed after all retry attempts") db2
        ⟨db3, false, tr1 ++ [.statusWrite .failed]⟩
    | .exn msg =>
      if attempt < max_retry_attempts - 1 then
        let d := retry_delays.getD (min attempt (retry_delays.length - 1)) 0
        syncLoop uploads photo_id event_id now rest db1 (tr1 ++ [.sleep d])
      else
        let db2 := dbUpdatePhoto photo_id (photoFailUpdate now) db1
        let db3 := dbUpdateEvent event_id (eventFailUpdate now msg) db2
        ⟨db3, false, tr1 ++ [.statusWrite .failed]⟩

/-- `SyncCoordinator.sync_photo_to_photoprism` (`sync_coordinator.py`
lines 27-177).  Fail-fast paths return `False` without inserting an event;
otherwise one sync event is inserted and the retry loop runs. -/
def sync_photo_to_photoprism (db : DB) (uploads : Nat → UploadOutcome)
    (photo_id event_id : String) (now : Nat) : SyncOut :=
  match db.photos.find? (fun p => p.id == photo_id) with
  | none => ⟨db, false, []⟩
  | some photo =>
    match db.photoprism_instances.find? (fun i =>
        i.school_id == photo.school_id && i.status == InstanceStatus.active) with
    | none => ⟨db, false, []⟩
    | some inst =>
      let ev : PhotoPrismSyncEvent :=
        { id := event_id, photo_id := photo_id, instance_id := inst.id,
          event_type := .upload, event_status := .pending,
          payload := [("filename", photo.filename), ("file_path", photo.original_path)],
          created_at := now, updated_at := now }
      let db1 : DB := { db with photoprism_sync_events := db.photoprism_sync_events ++ [ev] }
      syncLoop uploads photo_id event_id now (List.range max_retry_attempts) db1 []

/-- Outcome of one `sync_with_semaphore` task as seen by
`asyncio.gather(..., return_exceptions=True)`: either the pair
`(photo_id, bool)` or the exception object the task raised. -/
inductive TaskOutcome
  | ok (b : Bool)
  | exn (msg : String)
deriving DecidableEq, Repr

/-- Python dict assignment `d[k] = v`: replace the existing entry for `k`
or append a new one. -/
def dictInsert (k : String) (v : Bool) : List (String × Bool) → List (String × Bool)
  | [] => [(k, v)]
  | (k', v') :: rest => if k' == k then (k, v) :: rest else (k', v') :: dictInsert k v rest

/-- Python dict lookup. -/
def dictLookup (m : List (String × Bool)) (k : String) : Option Bool :=
  (m.find? (fun kv => kv.1 == k)).map (·.2)

/-- The result-collection loop of `batch_sync_photos` (`sync_coordinator.py`
lines 193-199): tasks that raised are logged and dropped; normal results
are entered into the dict.  Parametrised over per-task outcomes so that the
behaviour under a raising task is itself part of the model. -/
def gather_results (photo_ids : List String) (outcome : String → TaskOutcome) :
    List (String × Bool) :=
  photo_ids.foldl (fun acc pid =>
    match outcome pid with
    | .ok b => dictInsert pid b acc
    | .exn _ => acc) []

/-- `SyncCoordinator.batch_sync_photos` (lines 179-201) with the embedded
`sync_photo_to_photoprism` as the task body.  The semaphore-bounded
concurrent execution is modelled as the sequential schedule in task order
(our `sync_photo_to_photoprism` is a total function, so no task raises and
every task's `(photo_id, ok)` pair reaches the result dict).  `uploads` and
`event_ids` give each photo its upload behaviour and fresh event id. -/
def batch_sync_photos (db : DB) (uploads : String → Nat → UploadOutcome)
    (event_ids : String → String) (now : Nat) (photo_ids : List String) :
    DB × List (String × Bool) :=
  photo_ids.foldl (fun acc pid =>
    let out := sync_photo_to_photoprism acc.1 (uploads pid) pid (event_ids pid) now
    (out.db, dictInsert pid out.ok acc.2)) (db, [])

/-- `SyncCoordinator.retry_failed_syncs` (lines 346-373): select up to
`limit` FAILED photos of the school, reset them to PENDING
(`update_many`), batch-sync them, and return their ids. -/
def retry_failed_syncs (db : DB) (uploads : String → Nat → UploadOutcome)
    (event_ids : String → String) (now : Nat) (school_id : String) (limit : Nat) :
    DB × List String :=
  let failed_photos := (db.photos.filter (fun p =>
      p.school_id == school_id && p.status == PhotoStatus.failed)).take limit
  let photo_ids := failed_photos.map (·.id)
  if photo_ids.isEmpty then (db, photo_ids)
  else
    let resetToPending : Photo → Photo := fun p => { p with status := .pending, updated_at := now }
    let db1 : DB :=
      { db with photos := updateAll (fun p => photo_ids.contains p.id) resetToPending db.photos }
    ((batch_sync_photos db1 uploads event_ids now photo_ids).1, photo_ids)

/-- One item of the remote photo set returned by
`adapter.search_photos("", count=10000)`; the reconciler reads keys `uuid`
and `filename` with `dict.get`. -/
structure RemotePhoto where
  uuid : Option String := none
  filename : Option String := none
deriving DecidableEq, Repr

/-- Python truthiness of `d.get(key)` for a string-valued key: `None` and
the empty string are falsy. -/
def truthy : Option String → Bool
  | none => false
  | some s => !s.isEmpty

/-- An entry of the report's `orphaned_yabook` list (lines 256-260). -/
structure OrphanYabook where
  id : String
  filename : String
  photoprism_uuid : String
deriving DecidableEq, Repr

/-- An entry of the report's `orphaned_photoprism` list (lines 264-267). -/
structure OrphanPhotoprism where
  uuid : String
  filename : String
deriving DecidableEq, Repr

/-- The reconciliation report (lines 207-217); timestamps and
`sync_conflicts` (never written) are omitted. -/
structure ReconcileReport where
  school_id : String
  dry_run : Bool
  yabook_photos : Nat := 0
  photoprism_photos : Nat := 0
  orphaned_yabook : List OrphanYabook := []
  orphaned_photoprism : List OrphanPhotoprism := []
  actions_taken : List String := []
  error : Option String := none
deriving DecidableEq, Repr

/-- Keys of `photoprism_by_uuid = {p["uuid"]: p for p in photoprism_photos
if p.get("uuid")}` (line 251). -/
def remoteUuids (remote_list : List RemotePhoto) : List String :=
  (remote_list.filter (fun r => truthy r.uuid)).filterMap (·.uuid)

/-- Keys of `yabook_by_uuid = {p["photoprism_uuid"]: p for p in
yabook_photos if p.get("photoprism_uuid")}` (line 250). -/
def localUuids (yabook_photos : List Photo) : List String :=
  (yabook_photos.filter (fun p => truthy p.photoprism_uuid)).filterMap (·.photoprism_uuid)

/-- The reconcile repair `$set` (lines 273-283). -/
def orphanResetUpdate (now : Nat) (p : Photo) : Photo :=
  { p with status := .pending, photoprism_uuid := none,
           photoprism_filename := none, updated_at := now }

/-- `SyncCoordinator.reconcile_school_photos` (lines 203-295).  `remote`
is the value of `adapter.search_photos("", count=10000)`: `none` when the
client returned `None`.  `if photoprism_photos:` (line 246) is falsy both
for `None` and for the empty list, so classification and repair run only
when the remote fetch yielded a non-empty list. -/
def reconcile_school_photos (db : DB) (remote : Option (List RemotePhoto))
    (school_id : String) (dry_run : Bool) (now : Nat) : DB × ReconcileReport :=
  let yabook_photos := db.photos.filter (fun p => p.school_id == school_id)
  let base : ReconcileReport :=
    { school_id := school_id, dry_run := dry_run, yabook_photos := yabook_photos.length }
  match db.photoprism_instances.find? (fun i =>
      i.school_id == school_id && i.status == InstanceStatus.active) with
  | none => (db, { base with error := some "No active PhotoPrism instance found" })
  | some _ =>
    match remote with
    | none => (db, base)
    | some remote_list =>
      if remote_list.isEmpty then (db, base)
      else
        let orphaned_yabook : List OrphanYabook :=
          (yabook_photos.filter (fun p =>
            truthy p.photoprism_uuid
              && !((remoteUuids remote_list).contains (p.photoprism_uuid.getD "")))).map
            (fun p => ⟨p.id, p.filename, p.photoprism_uuid.getD ""⟩)
        let orphaned_photoprism : List OrphanPhotoprism :=
          (remote_list.filter (fun r =>
            truthy r.uuid
              && !((localUuids yabook_photos).contains (r.uuid.getD "")))).map
            (fun r => ⟨r.uuid.getD "", r.filename.getD "unknown"⟩)
        let db' : DB :=
          if dry_run then db
          else orphaned_yabook.foldl (fun d o =>
            { d with photos :=
                updateFirst (fun p => p.id == o.id) (orphanResetUpdate now) d.photos }) db
        let actions : List String :=
          if dry_run then []
          else orphaned_yabook.map (fun o => "Reset photo " ++ o.id ++ " to pending")
        let rep : ReconcileReport :=
          { base with
            photoprism_photos := remote_list.length
            orphaned_yabook := orphaned_yabook
            orphaned_photoprism := orphaned_photoprism
            actions_taken := actions }
        (db', rep)

/-- The value computed by `get_sync_status` (lines 297-344). -/
structure SyncStatusOut where
  school_id : String
  total_photos : Nat
  synced_photos : Nat
  pending_photos : Nat
  failed_photos : Nat
  last_sync : Option Nat
  active_sync_jobs : Nat
  sync_percentage : ℚ
deriving DecidableEq, Repr

/-- The `$match school_id` + `$group by status, count` pipeline (lines
303-308): one `(status, count)` group per status value occurring among the
school's photos. -/
def statusCounts (photos : List Photo) (school_id : String) : List (PhotoStatus × Nat) :=
  ([PhotoStatus.pending, PhotoStatus.synced, PhotoStatus.failed].map (fun s =>
      (s, (photos.filter (fun p => p.school_id == school_id && p.status == s)).length))).filter
    (fun sc => sc.2 ≠ 0)

/-- Python `round(x, 2)` on the percentage (line 336), over ℚ.  Mathlib's
`round` rounds half away from zero while Python rounds half to even; the
two differ only at exact ties in the third decimal, which no claim
exercises. -/
def round2 (q : ℚ) : ℚ := (round (q * 100) : ℤ) / 100

/-- `SyncCoordinator.get_sync_status` (lines 297-344).  Note: the photo
counts are `$match`-ed on `school_id`, but the `last_sync` lookup (lines
316-319) and the `active_sync_jobs` count (lines 324-326) query the event
collection with no school filter.  `find_one` with `sort=[("updated_at",
-1)]` yields the success event with the greatest `updated_at`, so
`last_sync` is that maximum. -/
def get_sync_status (db : DB) (school_id : String) : SyncStatusOut :=
  let counts := statusCounts db.photos school_id
  let total_photos := (counts.map (·.2)).sum
  let synced_photos := ((counts.find? (fun sc => sc.1 == PhotoStatus.synced)).map (·.2)).getD 0
  let pending_photos := ((counts.find? (fun sc => sc.1 == PhotoStatus.pending)).map (·.2)).getD 0
  let failed_photos := ((counts.find? (fun sc => sc.1 == PhotoStatus.failed)).map (·.2)).getD 0
  let last_sync : Option Nat :=
    ((db.photoprism_sync_events.filter (fun e =>
        e.event_status == SyncEventStatus.success)).map (·.updated_at)).max?
  let active_sync_jobs :=
    (db.photoprism_sync_events.filter (fun e =>
        e.event_status == SyncEventStatus.pending
          || e.event_status == SyncEventStatus.processing)).length
  { school_id := school_id
    total_photos := total_photos
    synced_photos := synced_photos
    pending_photos := pending_photos
    failed_photos := failed_photos
    last_sync := last_sync
    active_sync_jobs := active_sync_jobs
    sync_percentage :=
      if total_photos > 0 then round2 ((synced_photos : ℚ) / (total_photos : ℚ) * 100) else 0 }

/-- The state of one `PhotoPrismAdapter` (`photoprism_adapter.py` lines
12-25): constructor arguments plus the mutable session cache. -/
structure PhotoPrismAdapter where
  base_url : String
  admin_username : String
  admin_password : String
  session_token : Option String := none
  session_expires : Option Nat := none
deriving DecidableEq, Repr

/-- `base_url.rstrip('/')` (line 19). -/
def rstripSlash (s : String) : String :=
  String.mk ((s.data.reverse.dropWhile (fun c => c = '/')).reverse)

/-- The `instance_config` dict passed to `get_instance_for_school`. -/
structure InstanceConfig where
  base_url : String
  admin_username : String
  admin_password : String
deriving DecidableEq, Repr

/-- `PhotoPrismAdapter.__init__` (lines 18-24). -/
def mkAdapter (cfg : InstanceConfig) : PhotoPrismAdapter :=
  { base_url := rstripSlash cfg.base_url, admin_username := cfg.admin_username,
    admin_password := cfg.admin_password }

/-- `PhotoPrismInstanceManager` (lines 207-242): the keyed adapter cache. -/
structure PhotoPrismInstanceManager where
  _instances : List (String × PhotoPrismAdapter) := []
deriving DecidableEq, Repr

/-- `PhotoPrismInstanceManager.get_instance_for_school` (lines 215-226):
return the cached adapter if present, else construct one from the config
and cache it. -/
def get_instance_for_school (m : PhotoPrismInstanceManager) (school_id : String)
    (instance_config : InstanceConfig) : PhotoPrismAdapter × PhotoPrismInstanceManager :=
  match m._instances.find? (fun kv => kv.1 == school_id) with
  | some kv => (kv.2, m)
  | none =>
    let a := mkAdapter instance_config
    (a, ⟨m._instances ++ [(school_id, a)]⟩)

/-- `PhotoPrismInstanceManager.remove_instance` (lines 228-233): evict the
cache entry (dict keys are unique, so deleting the key equals filtering it
out). -/
def remove_instance (m : PhotoPrismInstanceManager) (school_id : String) :
    PhotoPrismInstanceManager :=
  ⟨m._instances.filter (fun kv => !(kv.1 == school_id))⟩

/-! ### Derived observations and claim-side notions -/

/-- Whether an upload outcome is the success case (`if result:` truthy). -/
def isOkUpload : UploadOutcome → Bool
  | .ok _ => true
  | _ => false

/-- The photo-status writes of a trace, in order. -/
def statusWritesOf (tr : List TraceEv) : List PhotoStatus :=
  tr.filterMap fun e => match e with | .statusWrite s => some s | _ => none

/-- The attempt indices of a trace, in order. -/
def attemptStartsOf (tr : List TraceEv) : List Nat :=
  tr.filterMap fun e => match e with | .attemptStart n => some n | _ => none

/-- The executed inter-attempt delays of a trace, in order. -/
def delaysOf (tr : List TraceEv) : List Nat :=
  tr.filterMap fun e => match e with | .sleep d => some d | _ => none

/-- `retry_delays[min(attempt, len(retry_delays) - 1)]`: the index-clamped
delay after the given (0-based) failed attempt. -/
def clampedDelay (i : Nat) : Nat :=
  retry_delays.getD (min i (retry_delays.length - 1)) 0

/-- The canonical shape of `k` attempts with the scheduled delays strictly
between consecutive attempts: no delay before the first or after the last. -/
def canonicalAttemptTrace (k : Nat) : List TraceEv :=
  (List.range k).flatMap fun i =>
    (if i = 0 then [] else [TraceEv.sleep (clampedDelay (i - 1))]) ++ [TraceEv.attemptStart i]

/-- The five-state status space asserted by the spec (section 4.3); the
code's `PhotoStatus` has no counterpart of `syncing` or `orphaned`. -/
inductive SpecSyncStatus
  | pending
  | syncing
  | synced
  | failed
  | orphaned
deriving DecidableEq, Repr

/-- The transition edges the claim asserts as the only legal ones. -/
def specEdge : SpecSyncStatus → SpecSyncStatus → Bool
  | .pending, .syncing => true
  | .syncing, .synced => true
  | .syncing, .failed => true
  | .failed, .pending => true
  | .synced, .pending => true
  | _, _ => false

/-- The evident embedding of the code's statuses into the spec's. -/
def embedStatus : PhotoStatus → SpecSyncStatus
  | .pending => .pending
  | .synced => .synced
  | .failed => .failed

/-! ### Concrete fixtures for counterexamples and witnesses -/

/-- Shorthand for building concrete photo documents. -/
def mkPhoto (i sid : String) (st : PhotoStatus) (uuid : Option String) : Photo :=
  { id := i, school_id := sid, filename := i ++ ".jpg", original_path := "/up/" ++ i,
    status := st, photoprism_uuid := uuid }

/-- A pending photo whose document carries `sync_version = 1` (as the
repository's seed data does). -/
def exPhoto : Photo :=
  { mkPhoto "p1" "s1" .pending none with sync_version := some 1 }

/-- An active instance for school `s1`. -/
def exInstance : PhotoPrismInstance := { id := "i1", school_id := "s1" }

/-- A one-photo store with an active instance and no events. -/
def exDB : DB := { photos := [exPhoto], photoprism_instances := [exInstance] }

/-- Upload behaviour: attempts 1 and 2 fail, attempt 3 succeeds. -/
def exUploadsThird : Nat → UploadOutcome :=
  fun n => if n < 2 then .failedUp else .ok ⟨some "ru", some "rf"⟩

/-- Upload behaviour: immediate success. -/
def exUploadsOk : Nat → UploadOutcome := fun _ => .ok ⟨some "ru", some "rf"⟩

/-- Upload behaviour: every attempt fails (returns `None`). -/
def exUploadsFail : Nat → UploadOutcome := fun _ => .failedUp

/-- A store for the reconciliation counterexample: one synced local photo
whose remote uuid is `u1`, and an active instance. -/
def exDB6 : DB :=
  { photos := [mkPhoto "p1" "s1" .synced (some "u1")],
    photoprism_instances := [exInstance] }

/-- Scenario store for C6's witness: 10 local photos for school `s1`,
8 with a remote uuid present remotely (`r1`…`r8`) and 2 with a remote uuid
absent remotely (`x1`, `x2`). -/
def exDB6w : DB :=
  { photos :=
      (List.range 8).map (fun i =>
        mkPhoto ("m" ++ toString (i + 1)) "s1" .synced (some ("r" ++ toString (i + 1))))
      ++ [mkPhoto "o1" "s1" .synced (some "x1"), mkPhoto "o2" "s1" .synced (some "x2")],
    photoprism_instances := [exInstance] }

/-- Remote set for C6's witness: the 8 matching items plus one with no
local match. -/
def exRemote6w : List RemotePhoto :=
  (List.range 8).map (fun i => ⟨some ("r" ++ toString (i + 1)), some ("f" ++ toString (i + 1))⟩)
  ++ [⟨some "z9", some "fz"⟩]

/-- Store for C8's counterexample: school `A` has one photo and no events;
every event belongs to school `B`'s photo `pB`, including a SUCCESS event
at time 42 and a PENDING one. -/
def exDB8 : DB :=
  { photos := [mkPhoto "pA" "A" .pending none, mkPhoto "pB" "B" .synced (some "ub")],
    photoprism_instances := []
    photoprism_sync_events :=
      [{ id := "eB1", photo_id := "pB", instance_id := "iB", event_type := .upload,
         event_status := .success, updated_at := 42 },
       { id := "eB2", photo_id := "pB", instance_id := "iB", event_type := .upload,
         event_status := .pending, updated_at := 50 }] }

/-- Scenario store for C8's witness: 10 photos for school `s1`, 6 synced,
2 pending, 2 failed. -/
def exDB8w : DB :=
  { photos :=
      (List.range 6).map (fun i => mkPhoto ("sy" ++ toString i) "s1" .synced (some "u"))
      ++ (List.range 2).map (fun i => mkPhoto ("pe" ++ toString i) "s1" .pending none)
      ++ (List.range 2).map (fun i => mkPhoto ("fa" ++ toString i) "s1" .failed none) }

/-- A cached adapter and a one-entry registry for C10. -/
def exAdapter : PhotoPrismAdapter :=
  { base_url := "http://old", admin_username := "u", admin_password := "p" }

/-- Registry that already caches `exAdapter` for school `s1`. -/
def exManager : PhotoPrismInstanceManager := ⟨[("s1", exAdapter)]⟩

/-- A changed configuration that a cached lookup must ignore. -/
def exNewConfig : InstanceConfig :=
  { base_url := "http://new/", admin_username := "u2", admin_password := "p2" }

/-! ### Generic store lemmas -/

theorem updateFirst_length (p : α → Bool) (f : α → α) (l : List α) :
    (updateFirst p f l).length = l.length := by
  induction l with
  | nil => rfl
  | cons x xs ih => simp only [updateFirst]; split <;> simp [ih]

theorem updateFirst_map (g : α → β) (p : α → Bool) (f : α → α) (l : List α)
    (h : ∀ x, g (f x) = g x) : (updateFirst p f l).map g = l.map g := by
  induction l with
  | nil => rfl
  | cons x xs ih => simp only [updateFirst]; split <;> simp [ih, h]

theorem updateAll_map (g : α → β) (p : α → Bool) (f : α → α) (l : List α)
    (h : ∀ x, g (f x) = g x) : (updateAll p f l).map g = l.map g := by
  induction l with
  | nil => rfl
  | cons x xs ih =>
    simp only [updateAll, List.map_cons] at ih ⊢
    rw [ih]
    split <;> simp [h]

theorem find?_updateFirst (p : α → Bool) (f : α → α) (l : List α)
    (h : ∀ x, p (f x) = p x) :
    (updateFirst p f l).find? p = (l.find? p).map f := by
  induction l with
  | nil => rfl
  | cons x xs ih =>
    simp only [updateFirst]
    by_cases hx : p x
    · rw [if_pos hx, List.find?_cons_of_pos _ ((h x).trans hx),
        List.find?_cons_of_pos _ hx, Option.map_some']
    · rw [if_neg hx, List.find?_cons_of_neg _ hx, List.find?_cons_of_neg _ hx, ih]

theorem updateFirst_filter_neg (p : α → Bool) (f : α → α) (l : List α)
    (h : ∀ x, p (f x) = p x) :
    (updateFirst p f l).filter (fun x => !(p x)) = l.filter (fun x => !(p x)) := by
  induction l with
  | nil => rfl
  | cons x xs ih =>
    simp only [updateFirst]
    by_cases hx : p x
    · rw [if_pos hx]
      simp [List.filter_cons, hx, h x]
    · rw [if_neg hx]
      simp [List.filter_cons, hx, ih]

theorem dbUpdatePhoto_photos (pid : String) (f : Photo → Photo) (db : DB) :
    (dbUpdatePhoto pid f db).photos = updateFirst (fun p => p.id == pid) f db.photos := rfl

theorem dbUpdatePhoto_events (pid : String) (f : Photo → Photo) (db : DB) :
    (dbUpdatePhoto pid f db).photoprism_sync_events = db.photoprism_sync_events := rfl

theorem dbUpdatePhoto_instances (pid : String) (f : Photo → Photo) (db : DB) :
    (dbUpdatePhoto pid f db).photoprism_instances = db.photoprism_instances := rfl

theorem dbUpdateEvent_photos (eid : String) (f : PhotoPrismSyncEvent → PhotoPrismSyncEvent)
    (db : DB) : (dbUpdateEvent eid f db).photos = db.photos := rfl

theorem dbUpdateEvent_events (eid : String) (f : PhotoPrismSyncEvent → PhotoPrismSyncEvent)
    (db : DB) : (dbUpdateEvent eid f db).photoprism_sync_events
      = updateFirst (fun e => e.id == eid) f db.photoprism_sync_events := rfl

theorem dbUpdateEvent_instances (eid : String) (f : PhotoPrismSyncEvent → PhotoPrismSyncEvent)
    (db : DB) : (dbUpdateEvent eid f db).photoprism_instances = db.photoprism_instances := rfl

/-! ### Lemmas about the retry loop and `sync_photo_to_photoprism` -/

theorem syncLoop_photos_map {β : Type} (g : Photo → β)
    (hs : ∀ now r p, g (photoSuccessUpdate now r p) = g p)
    (hf : ∀ now p, g (photoFailUpdate now p) = g p)
    (u : Nat → UploadOutcome) (pid eid : String) (now : Nat) :
    ∀ (rest : List Nat) (db : DB) (tr : List TraceEv),
      (syncLoop u pid eid now rest db tr).db.photos.map g = db.photos.map g := by
  intro rest
  induction rest with
  | nil => intro db tr; rfl
  | cons a rest ih =>
    intro db tr
    rcases hu : u a with r | _ | msg <;> simp only [syncLoop, hu]
    · simp only [dbUpdateEvent_photos, dbUpdatePhoto_photos]
      exact updateFirst_map g _ _ _ (hs now r)
    · split
      · rw [ih]
        simp only [dbUpdateEvent_photos]
      · simp only [dbUpdateEvent_photos, dbUpdatePhoto_photos]
        exact updateFirst_map g _ _ _ (hf now)
    · split
      · rw [ih]
        simp only [dbUpdateEvent_photos]
      · simp only [dbUpdateEvent_photos, dbUpdatePhoto_photos]
        exact updateFirst_map g _ _ _ (hf now)

theorem syncLoop_events_length (u : Nat → UploadOutcome) (pid eid : String) (now : Nat) :
    ∀ (rest : List Nat) (db : DB) (tr : List TraceEv),
      (syncLoop u pid eid now rest db tr).db.photoprism_sync_events.length
        = db.photoprism_sync_events.length := by
  intro rest
  induction rest with
  | nil => intro db tr; rfl
  | cons a rest ih =>
    intro db tr
    rcases hu : u a with r | _ | msg <;> simp only [syncLoop, hu]
    · simp only [dbUpdateEvent_events, dbUpdatePhoto_events, updateFirst_length]
    · split
      · rw [ih]
        simp only [dbUpdateEvent_events, updateFirst_length]
      · simp only [dbUpdateEvent_events, dbUpdatePhoto_events, updateFirst_length]
    · split
      · rw [ih]
        simp only [dbUpdateEvent_events, updateFirst_length]
      · simp only [dbUpdateEvent_events, dbUpdatePhoto_events, updateFirst_length]

theorem syncLoop_instances (u : Nat → UploadOutcome) (pid eid : String) (now : Nat) :
    ∀ (rest : List Nat) (db : DB) (tr : List TraceEv),
      (syncLoop u pid eid now rest db tr).db.photoprism_instances
        = db.photoprism_instances := by
  intro rest
  induction rest with
  | nil => intro db tr; rfl
  | cons a rest ih =>
    intro db tr
    rcases hu : u a with r | _ | msg <;> simp only [syncLoop, hu]
    · rfl
    · split
      · rw [ih]; rfl
      · rfl
    · split
      · rw [ih]; rfl
      · rfl

theorem statusWritesOf_append (t₁ t₂ : List TraceEv) :
    statusWritesOf (t₁ ++ t₂) = statusWritesOf t₁ ++ statusWritesOf t₂ := by
  simp [statusWritesOf, List.filterMap_append]

theorem syncLoop_statusWrites (u : Nat → UploadOutcome) (pid eid : String) (now : Nat) :
    ∀ (rest : List Nat) (db : DB) (tr : List TraceEv),
      ((syncLoop u pid eid now rest db tr).ok = true →
        statusWritesOf (syncLoop u pid eid now rest db tr).trace
          = statusWritesOf tr ++ [PhotoStatus.synced]) ∧
      ((syncLoop u pid eid now rest db tr).ok = false →
        statusWritesOf (syncLoop u pid eid now rest db tr).trace
            = statusWritesOf tr ++ [PhotoStatus.failed] ∨
          statusWritesOf (syncLoop u pid eid now rest db tr).trace = statusWritesOf tr) := by
  intro rest
  induction rest with
  | nil =>
    intro db tr
    exact ⟨fun h => by simp [syncLoop] at h, fun _ => Or.inr rfl⟩
  | cons a rest ih =>
    intro db tr
    rcases hu : u a with r | _ | msg <;> simp only [syncLoop, hu]
    · refine ⟨fun _ => ?_, fun h => by simp at h⟩
      simp [statusWritesOf_append, statusWritesOf]
    · split
      · refine ⟨fun h => ?_, fun h => ?_⟩
        · rw [(ih _ _).1 h]
          simp [statusWritesOf_append, statusWritesOf]
        · rcases (ih _ _).2 h with h' | h'
          · left
            rw [h']
            simp [statusWritesOf_append, statusWritesOf]
          · right
            rw [h']
            simp [statusWritesOf_append, statusWritesOf]
      · refine ⟨fun h => by simp at h, fun _ => Or.inl ?_⟩
        simp [statusWritesOf_append, statusWritesOf]
    · split
      · refine ⟨fun h => ?_, fun h => ?_⟩
        · rw [(ih _ _).1 h]
          simp [statusWritesOf_append, statusWritesOf]
        · rcases (ih _ _).2 h with h' | h'
          · left
            rw [h']
            simp [statusWritesOf_append, statusWritesOf]
          · right
            rw [h']
            simp [statusWritesOf_append, statusWritesOf]
      · refine ⟨fun h => by simp at h, fun _ => Or.inl ?_⟩
        simp [statusWritesOf_append, statusWritesOf]

theorem sync_photo_photos_map {β : Type} (g : Photo → β)
    (hs : ∀ now r p, g (photoSuccessUpdate now r p) = g p)
    (hf : ∀ now p, g (photoFailUpdate now p) = g p)
    (db : DB) (u : Nat → UploadOutcome) (pid eid : String) (now : Nat) :
    (sync_photo_to_photoprism db u pid eid now).db.photos.map g = db.photos.map g := by
  rcases h1 : db.photos.find? (fun p => p.id == pid) with _ | photo
  · simp [sync_photo_to_photoprism, h1]
  · rcases h2 : db.photoprism_instances.find? (fun i =>
        i.school_id == photo.school_id && i.status == InstanceStatus.active) with _ | inst
    · simp [sync_photo_to_photoprism, h1, h2]
    · simp only [sync_photo_to_photoprism, h1, h2]
      exact syncLoop_photos_map g hs hf u pid eid now _ _ _

theorem foldl_fst_photos_map {β : Type} (g : Photo → β)
    (step : DB × List (String × Bool) → String → DB × List (String × Bool))
    (hstep : ∀ acc pid, ((step acc pid).1.photos.map g = acc.1.photos.map g)) :
    ∀ (ids : List String) (acc : DB × List (String × Bool)),
      ((ids.foldl step acc).1.photos.map g = acc.1.photos.map g) := by
  intro ids
  induction ids with
  | nil => intro acc; rfl
  | cons x xs ih => intro acc; rw [List.foldl_cons, ih, hstep]

theorem batch_photos_map {β : Type} (g : Photo → β)
    (hs : ∀ now r p, g (photoSuccessUpdate now r p) = g p)
    (hf : ∀ now p, g (photoFailUpdate now p) = g p)
    (db : DB) (u : String → Nat → UploadOutcome) (eids : String → String) (now : Nat)
    (ids : List String) :
    (batch_sync_photos db u eids now ids).1.photos.map g = db.photos.map g := by
  simp only [batch_sync_photos]
  exact foldl_fst_photos_map g _ (fun acc pid => sync_photo_photos_map g hs hf _ _ _ _ _) ids (db, [])

theorem reconcileFold_photos_map {β : Type} (g : Photo → β) (now : Nat)
    (h : ∀ p, g (orphanResetUpdate now p) = g p) :
    ∀ (os : List OrphanYabook) (d : DB),
      ((os.foldl (fun d o =>
          { d with photos :=
              updateFirst (fun p => p.id == o.id) (orphanResetUpdate now) d.photos }) d).photos.map g
        = d.photos.map g) := by
  intro os
  induction os with
  | nil => intro d; rfl
  | cons o os ih =>
    intro d
    rw [List.foldl_cons, ih]
    exact updateFirst_map g _ _ _ h

/-! ### Claim C1 -/

/-- C1, counterexample: a concrete `sync_photo_to_photoprism` call that
returns `true` (successful sync) leaves the photo's `sync_version`
document key at `1`; it does not increase it by exactly 1 to `2` as the
claim states. -/
theorem C1_counterexample :
    (sync_photo_to_photoprism exDB exUploadsOk "p1" "e1" 100).ok = true ∧
    exPhoto.sync_version = some 1 ∧
    ((sync_photo_to_photoprism exDB exUploadsOk "p1" "e1" 100).db.photos.find?
        (fun p => p.id == "p1")).map (·.sync_version) = some (some 1) ∧
    ¬ ((sync_photo_to_photoprism exDB exUploadsOk "p1" "e1" 100).db.photos.find?
        (fun p => p.id == "p1")).map (·.sync_version) = some (some 2) := by
  decide

/-- C1, amended: the coordinator does not maintain `sync_version` at all.
Every coordinator operation (`sync_photo_to_photoprism`, successful or
not, `batch_sync_photos`, `retry_failed_syncs`, and
`reconcile_school_photos`) leaves every photo's `sync_version` document
key unchanged; in particular it is unchanged (not incremented by 1) on a
successful sync, unchanged on failure, and never decreases. -/
theorem C1_sync_version_never_changes :
    (∀ (db : DB) (u : Nat → UploadOutcome) (pid eid : String) (now : Nat),
      (sync_photo_to_photoprism db u pid eid now).db.photos.map (·.sync_version)
        = db.photos.map (·.sync_version)) ∧
    (∀ (db : DB) (u : String → Nat → UploadOutcome) (eids : String → String) (now : Nat)
        (ids : List String),
      (batch_sync_photos db u eids now ids).1.photos.map (·.sync_version)
        = db.photos.map (·.sync_version)) ∧
    (∀ (db : DB) (u : String → Nat → UploadOutcome) (eids : String → String) (now : Nat)
        (sid : String) (lim : Nat),
      (retry_failed_syncs db u eids now sid lim).1.photos.map (·.sync_version)
        = db.photos.map (·.sync_version)) ∧
    (∀ (db : DB) (remote : Option (List RemotePhoto)) (sid : String) (dr : Bool) (now : Nat),
      (reconcile_school_photos db remote sid dr now).1.photos.map (·.sync_version)
        = db.photos.map (·.sync_version)) := by
  refine ⟨?_, ?_, ?_, ?_⟩
  · intro db u pid eid now
    exact sync_photo_photos_map (fun p => p.sync_version)
      (fun _ _ _ => rfl) (fun _ _ => rfl) db u pid eid now
  · intro db u eids now ids
    exact batch_photos_map (fun p => p.sync_version)
      (fun _ _ _ => rfl) (fun _ _ => rfl) db u eids now ids
  · intro db u eids now sid lim
    simp only [retry_failed_syncs]
    split
    · rfl
    · refine ((batch_photos_map (fun p => p.sync_version)
        (fun _ _ _ => rfl) (fun _ _ => rfl) _ u eids now _).trans ?_)
      have h2 : ∀ (l : List Photo) (q : Photo → Bool),
          (updateAll q (fun p => { p with status := PhotoStatus.pending, updated_at := now }) l).map
            (fun p => p.sync_version) = l.map (fun p => p.sync_version) :=
        fun l q => updateAll_map (fun (p : Photo) => p.sync_version) q
          (fun p => { p with status := PhotoStatus.pending, updated_at := now }) l (fun _ => rfl)
      exact h2 _ _
  · intro db remote sid dr now
    simp only [reconcile_school_photos]
    rcases hfind : db.photoprism_instances.find? (fun i =>
        i.school_id == sid && i.status == InstanceStatus.active) with _ | inst
    · simp [hfind]
    · rcases remote with _ | remote_list
      · simp [hfind]
      · cases remote_list with
        | nil => simp [hfind]
        | cons r rl =>
          cases dr with
          | true => simp [hfind]
          | false =>
            simp only [hfind]
            exact reconcileFold_photos_map (fun p => p.sync_version) now (fun _ => rfl) _ _

/-! ### Claim C2 -/

/-- C2, counterexample: the scenario the claim describes - first two
attempts fail, third succeeds - ends with exactly ONE sync event record
(whose final status is SUCCESS), not the 3 the claim asserts. -/
theorem C2_counterexample :
    (sync_photo_to_photoprism exDB exUploadsThird "p1" "e1" 100).ok = true ∧
    attemptStartsOf (sync_photo_to_photoprism exDB exUploadsThird "p1" "e1" 100).trace
      = [0, 1, 2] ∧
    (sync_photo_to_photoprism exDB exUploadsThird "p1" "e1" 100).db.photoprism_sync_events.length
      = 1 ∧
    ((sync_photo_to_photoprism exDB exUploadsThird "p1" "e1" 100).db.photoprism_sync_events.map
      (·.event_status)) = [SyncEventStatus.success] ∧
    ¬ (sync_photo_to_photoprism exDB exUploadsThird "p1" "e1"
        100).db.photoprism_sync_events.length = 3 := by
  decide

/-- C2, amended: every `sync_photo_to_photoprism` call that finds the
photo and an active instance inserts exactly one Sync Event, regardless of
how many upload attempts it performs; each attempt only updates that one
event's status in place.  (A call that fails fast inserts none.) -/
theorem C2_one_event_per_call (db : DB) (u : Nat → UploadOutcome) (pid eid : String)
    (now : Nat) (photo : Photo) (inst : PhotoPrismInstance)
    (h1 : db.photos.find? (fun p => p.id == pid) = some photo)
    (h2 : db.photoprism_instances.find? (fun i =>
        i.school_id == photo.school_id && i.status == InstanceStatus.active) = some inst) :
    (sync_photo_to_photoprism db u pid eid now).db.photoprism_sync_events.length
      = db.photoprism_sync_events.length + 1 := by
  simp only [sync_photo_to_photoprism, h1, h2]
  rw [syncLoop_events_length]
  simp

/-- C2, witness: the amended theorem applied to the three-attempt
scenario store. -/
theorem C2_one_event_per_call_witness :
    exDB.photos.find? (fun p => p.id == "p1") = some exPhoto ∧
    exDB.photoprism_instances.find? (fun i =>
        i.school_id == exPhoto.school_id && i.status == InstanceStatus.active) = some exInstance ∧
    (sync_photo_to_photoprism exDB exUploadsThird "p1" "e1" 100).db.photoprism_sync_events.length
      = exDB.photoprism_sync_events.length + 1 :=
  ⟨by decide, by decide,
    C2_one_event_per_call exDB exUploadsThird "p1" "e1" 100 exPhoto exInstance
      (by decide) (by decide)⟩

/-! ### Claim C3 -/

/-- C3, counterexample: a concrete successful `sync_photo_to_photoprism`
call writes the photo's status exactly once, taking it from PENDING
directly to SYNCED; `PENDING → SYNCED` is not an edge of the claim's state
machine (which requires passing through SYNCING), and the code's
`PhotoStatus` has no SYNCING value at all. -/
theorem C3_counterexample :
    exPhoto.status = PhotoStatus.pending ∧
    (sync_photo_to_photoprism exDB exUploadsOk "p1" "e1" 100).ok = true ∧
    ((sync_photo_to_photoprism exDB exUploadsOk "p1" "e1" 100).db.photos.map (·.status))
      = [PhotoStatus.synced] ∧
    statusWritesOf (sync_photo_to_photoprism exDB exUploadsOk "p1" "e1" 100).trace
      = [PhotoStatus.synced] ∧
    specEdge (embedStatus PhotoStatus.pending) (embedStatus PhotoStatus.synced) = false := by
  decide

/-- Both sides of `retry_failed_syncs` return the selected photo ids. -/
theorem retry_snd (db : DB) (u : String → Nat → UploadOutcome) (eids : String → String)
    (now : Nat) (sid : String) (lim : Nat) :
    (retry_failed_syncs db u eids now sid lim).2
      = ((db.photos.filter (fun p =>
          p.school_id == sid && p.status == PhotoStatus.failed)).take lim).map (·.id) := by
  simp only [retry_failed_syncs]
  split <;> rfl

/-- C3, amended: the status space is just {PENDING, SYNCED, FAILED} (no
SYNCING, no ORPHANED); `sync_photo_to_photoprism` writes the photo status
exactly once per non-fail-fast call - directly to SYNCED when it returns
true, directly to FAILED when it exhausts its attempts - with no
intermediate SYNCING state; and `retry_failed_syncs` retries only photos
that were FAILED for the given school (resetting them to PENDING before
re-syncing). -/
theorem C3_status_machine :
    (∀ s : PhotoStatus, s = .pending ∨ s = .synced ∨ s = .failed) ∧
    (∀ (db : DB) (u : Nat → UploadOutcome) (pid eid : String) (now : Nat),
      ((sync_photo_to_photoprism db u pid eid now).ok = true →
        statusWritesOf (sync_photo_to_photoprism db u pid eid now).trace = [PhotoStatus.synced]) ∧
      ((sync_photo_to_photoprism db u pid eid now).ok = false →
        statusWritesOf (sync_photo_to_photoprism db u pid eid now).trace = [PhotoStatus.failed] ∨
        statusWritesOf (sync_photo_to_photoprism db u pid eid now).trace = [])) ∧
    (∀ (db : DB) (u : String → Nat → UploadOutcome) (eids : String → String) (now : Nat)
        (sid : String) (lim : Nat) (pid : String),
      pid ∈ (retry_failed_syncs db u eids now sid lim).2 →
      ∃ p, p ∈ db.photos ∧ p.id = pid ∧ p.status = PhotoStatus.failed ∧ p.school_id = sid) := by
  refine ⟨fun s => by cases s <;> simp, ?_, ?_⟩
  · intro db u pid eid now
    rcases h1 : db.photos.find? (fun p => p.id == pid) with _ | photo
    · refine ⟨fun h => ?_, fun _ => Or.inr ?_⟩
      · simp [sync_photo_to_photoprism, h1] at h
      · simp [sync_photo_to_photoprism, h1, statusWritesOf]
    · rcases h2 : db.photoprism_instances.find? (fun i =>
          i.school_id == photo.school_id && i.status == InstanceStatus.active) with _ | inst
      · refine ⟨fun h => ?_, fun _ => Or.inr ?_⟩
        · simp [sync_photo_to_photoprism, h1, h2] at h
        · simp [sync_photo_to_photoprism, h1, h2, statusWritesOf]
      · simp only [sync_photo_to_photoprism, h1, h2]
        constructor
        · intro h
          have := (syncLoop_statusWrites u pid eid now (List.range max_retry_attempts) _ []).1 h
          simpa [statusWritesOf] using this
        · intro h
          rcases (syncLoop_statusWrites u pid eid now (List.range max_retry_attempts) _ []).2 h with
            h' | h'
          · left
            simpa [statusWritesOf] using h'
          · right
            simpa [statusWritesOf] using h'
  · intro db u eids now sid lim pid hmem
    rw [retry_snd] at hmem
    rcases List.mem_map.1 hmem with ⟨p, hp, rfl⟩
    have hp' := List.mem_of_mem_take hp
    have := List.mem_filter.1 hp'
    rcases this with ⟨hmem', hcond⟩
    simp only [Bool.and_eq_true, beq_iff_eq] at hcond
    exact ⟨p, hmem', rfl, hcond.2, hcond.1⟩

/-- C3, witness: the amended theorem applied to a concrete successful
call: the only status write is SYNCED. -/
theorem C3_status_machine_witness :
    (sync_photo_to_photoprism exDB exUploadsOk "p1" "e1" 100).ok = true ∧
    statusWritesOf (sync_photo_to_photoprism exDB exUploadsOk "p1" "e1" 100).trace
      = [PhotoStatus.synced] :=
  ⟨by decide, (C3_status_machine.2.1 exDB exUploadsOk "p1" "e1" 100).1 (by decide)⟩

/-! ### Claim C4 -/

/-- Closed form of the returned boolean over the three scheduled attempts. -/
theorem syncLoop_run_ok (u : Nat → UploadOutcome) (pid eid : String) (now : Nat)
    (db : DB) (tr : List TraceEv) :
    (syncLoop u pid eid now [0, 1, 2] db tr).ok
      = (isOkUpload (u 0) || isOkUpload (u 1) || isOkUpload (u 2)) := by
  rcases hu0 : u 0 with r0 | _ | m0 <;> rcases hu1 : u 1 with r1 | _ | m1 <;>
    rcases hu2 : u 2 with r2 | _ | m2 <;>
    simp [syncLoop, hu0, hu1, hu2, isOkUpload, max_retry_attempts]

/-- Closed form of the trace over the three scheduled attempts. -/
theorem syncLoop_run_trace (u : Nat → UploadOutcome) (pid eid : String) (now : Nat)
    (db : DB) (tr : List TraceEv) :
    (syncLoop u pid eid now [0, 1, 2] db tr).trace
      = tr ++ (if isOkUpload (u 0) then
            [TraceEv.attemptStart 0, TraceEv.statusWrite PhotoStatus.synced]
          else [TraceEv.attemptStart 0, TraceEv.sleep 5]
            ++ (if isOkUpload (u 1) then
                [TraceEv.attemptStart 1, TraceEv.statusWrite PhotoStatus.synced]
              else [TraceEv.attemptStart 1, TraceEv.sleep 15]
                ++ [TraceEv.attemptStart 2,
                    TraceEv.statusWrite
                      (if isOkUpload (u 2) then PhotoStatus.synced else PhotoStatus.failed)])) := by
  rcases hu0 : u 0 with r0 | _ | m0 <;> rcases hu1 : u 1 with r1 | _ | m1 <;>
    rcases hu2 : u 2 with r2 | _ | m2 <;>
    simp [syncLoop, hu0, hu1, hu2, isOkUpload, max_retry_attempts, retry_delays]

/-- C4: a non-fail-fast `sync_photo_to_photoprism` call performs `k ≤ 3`
upload attempts (numbered `0..k-1`); the delays executed between
consecutive attempts are exactly the index-clamped schedule prefix
`[5, 15, 60][min(i, 2)]` for `i < k - 1`; and the whole trace is the
canonical interleaving - attempt, delay, attempt, … - with no delay before
the first attempt or after the last, ending in the single status write. -/
theorem C4_retry_schedule (db : DB) (u : Nat → UploadOutcome) (pid eid : String)
    (now : Nat) (photo : Photo) (inst : PhotoPrismInstance)
    (h1 : db.photos.find? (fun p => p.id == pid) = some photo)
    (h2 : db.photoprism_instances.find? (fun i =>
        i.school_id == photo.school_id && i.status == InstanceStatus.active) = some inst) :
    ∃ k, 1 ≤ k ∧ k ≤ max_retry_attempts ∧
      attemptStartsOf (sync_photo_to_photoprism db u pid eid now).trace = List.range k ∧
      delaysOf (sync_photo_to_photoprism db u pid eid now).trace
        = (List.range (k - 1)).map clampedDelay ∧
      (sync_photo_to_photoprism db u pid eid now).trace
        = canonicalAttemptTrace k ++ [TraceEv.statusWrite
            (if (sync_photo_to_photoprism db u pid eid now).ok then PhotoStatus.synced
             else PhotoStatus.failed)] := by
  have hr : List.range max_retry_attempts = [0, 1, 2] := rfl
  simp only [sync_photo_to_photoprism, h1, h2, hr]
  rw [syncLoop_run_trace, syncLoop_run_ok]
  by_cases b0 : isOkUpload (u 0) = true
  · refine ⟨1, by decide, by decide, ?_, ?_, ?_⟩ <;> simp [b0] <;> decide
  · simp only [Bool.not_eq_true] at b0
    by_cases b1 : isOkUpload (u 1) = true
    · refine ⟨2, by decide, by decide, ?_, ?_, ?_⟩ <;> simp [b0, b1] <;> decide
    · simp only [Bool.not_eq_true] at b1
      by_cases b2 : isOkUpload (u 2) = true
      · refine ⟨3, by decide, by decide, ?_, ?_, ?_⟩ <;> simp [b0, b1, b2] <;> decide
      · simp only [Bool.not_eq_true] at b2
        refine ⟨3, by decide, by decide, ?_, ?_, ?_⟩ <;> simp [b0, b1, b2] <;> decide

/-- C4, witness: the schedule theorem applied to the concrete
fail-fail-succeed run. -/
theorem C4_retry_schedule_witness :
    exDB.photos.find? (fun p => p.id == "p1") = some exPhoto ∧
    exDB.photoprism_instances.find? (fun i =>
        i.school_id == exPhoto.school_id && i.status == InstanceStatus.active) = some exInstance ∧
    ∃ k, 1 ≤ k ∧ k ≤ max_retry_attempts ∧
      attemptStartsOf (sync_photo_to_photoprism exDB exUploadsThird "p1" "e1" 100).trace
        = List.range k ∧
      delaysOf (sync_photo_to_photoprism exDB exUploadsThird "p1" "e1" 100).trace
        = (List.range (k - 1)).map clampedDelay ∧
      (sync_photo_to_photoprism exDB exUploadsThird "p1" "e1" 100).trace
        = canonicalAttemptTrace k ++ [TraceEv.statusWrite
            (if (sync_photo_to_photoprism exDB exUploadsThird "p1" "e1" 100).ok then
              PhotoStatus.synced
             else PhotoStatus.failed)] :=
  ⟨by decide, by decide,
    C4_retry_schedule exDB exUploadsThird "p1" "e1" 100 exPhoto exInstance
      (by decide) (by decide)⟩

/-! ### Claim C5 -/

/-- C5, counterexample: a concrete call in which every attempt fails sets
the photo to FAILED and returns false, but leaves the photo's
`sync_errors` document key EMPTY - no error is appended, contradicting the
claim that `sync_errors` is non-empty afterwards. -/
theorem C5_counterexample :
    (sync_photo_to_photoprism exDB exUploadsFail "p1" "e1" 100).ok = false ∧
    ((sync_photo_to_photoprism exDB exUploadsFail "p1" "e1" 100).db.photos.find?
        (fun p => p.id == "p1")).map (·.status) = some PhotoStatus.failed ∧
    ((sync_photo_to_photoprism exDB exUploadsFail "p1" "e1" 100).db.photos.find?
        (fun p => p.id == "p1")).map (·.sync_errors) = some [] ∧
    ¬ ((sync_photo_to_photoprism exDB exUploadsFail "p1" "e1" 100).db.photos.find?
        (fun p => p.id == "p1")).map (fun p => p.sync_errors.isEmpty) = some false := by
  decide

/-- In the all-fail run the final store is the explicit update chain:
three PROCESSING writes, the photo FAILED write, and the event FAILED
write, over the store with the one inserted event. -/
theorem syncLoop_allfail_db (u : Nat → UploadOutcome) (pid eid : String) (now : Nat)
    (db : DB)
    (b0 : isOkUpload (u 0) = false) (b1 : isOkUpload (u 1) = false)
    (b2 : isOkUpload (u 2) = false) :
    ∃ msg, (syncLoop u pid eid now [0, 1, 2] db []).db
      = dbUpdateEvent eid (eventFailUpdate now msg)
          (dbUpdatePhoto pid (photoFailUpdate now)
            (dbUpdateEvent eid (eventProcessingUpdate now)
              (dbUpdateEvent eid (eventProcessingUpdate now)
                (dbUpdateEvent eid (eventProcessingUpdate now) db)))) := by
  rcases hu0 : u 0 with r0 | _ | m0
  · rw [hu0] at b0; simp [isOkUpload] at b0
  all_goals rcases hu1 : u 1 with r1 | _ | m1
  · rw [hu1] at b1; simp [isOkUpload] at b1
  all_goals try (rw [hu1] at b1; simp [isOkUpload] at b1)
  all_goals rcases hu2 : u 2 with r2 | _ | m2
  all_goals try (rw [hu2] at b2; simp [isOkUpload] at b2)
  all_goals simp [syncLoop, hu0, hu1, hu2, max_retry_attempts]
  all_goals exact ⟨_, rfl⟩

/-- C5, amended: when the photo and an active instance are found, the
event id is fresh, and every attempt fails (null result or exception), the
call returns false, sets the photo's status to FAILED (all other photo
fields - in particular the `sync_errors` document key - unchanged: nothing
is appended to it), and sets the one Sync Event to FAILED with
`error_details` populated. -/
theorem C5_exhaustion (db : DB) (u : Nat → UploadOutcome) (pid eid : String)
    (now : Nat) (photo : Photo) (inst : PhotoPrismInstance)
    (h1 : db.photos.find? (fun p => p.id == pid) = some photo)
    (h2 : db.photoprism_instances.find? (fun i =>
        i.school_id == photo.school_id && i.status == InstanceStatus.active) = some inst)
    (hfresh : ∀ e ∈ db.photoprism_sync_events, e.id ≠ eid)
    (hb : ∀ n, n < max_retry_attempts → isOkUpload (u n) = false) :
    (sync_photo_to_photoprism db u pid eid now).ok = false ∧
    (sync_photo_to_photoprism db u pid eid now).db.photos.find? (fun p => p.id == pid)
      = some (photoFailUpdate now photo) ∧
    ((sync_photo_to_photoprism db u pid eid now).db.photos.find?
        (fun p => p.id == pid)).map (·.sync_errors) = some photo.sync_errors ∧
    ((sync_photo_to_photoprism db u pid eid now).db.photoprism_sync_events.find?
        (fun e => e.id == eid)).map (·.event_status) = some SyncEventStatus.failed ∧
    ((sync_photo_to_photoprism db u pid eid now).db.photoprism_sync_events.find?
        (fun e => e.id == eid)).map (fun e => e.error_details.isSome) = some true := by
  have b0 := hb 0 (by decide)
  have b1 := hb 1 (by decide)
  have b2 := hb 2 (by decide)
  have hmain : sync_photo_to_photoprism db u pid eid now
      = syncLoop u pid eid now [0, 1, 2]
          { db with photoprism_sync_events := db.photoprism_sync_events ++
              [{ id := eid, photo_id := pid, instance_id := inst.id,
                 event_type := .upload, event_status := .pending,
                 payload := [("filename", photo.filename), ("file_path", photo.original_path)],
                 created_at := now, updated_at := now }] } [] := by
    simp only [sync_photo_to_photoprism, h1, h2]
    rfl
  obtain ⟨msg, hdb⟩ := syncLoop_allfail_db u pid eid now
    { db with photoprism_sync_events := db.photoprism_sync_events ++
        [{ id := eid, photo_id := pid, instance_id := inst.id,
           event_type := .upload, event_status := .pending,
           payload := [("filename", photo.filename), ("file_path", photo.original_path)],
           created_at := now, updated_at := now }] } b0 b1 b2
  have hok : (sync_photo_to_photoprism db u pid eid now).ok = false := by
    rw [hmain, syncLoop_run_ok, b0, b1, b2]
    rfl
  have hphoto : (sync_photo_to_photoprism db u pid eid now).db.photos.find?
      (fun p => p.id == pid) = some (photoFailUpdate now photo) := by
    rw [hmain, hdb]
    simp only [dbUpdateEvent_photos, dbUpdatePhoto_photos]
    rw [find?_updateFirst (fun p => p.id == pid) (photoFailUpdate now) db.photos
      (fun x => rfl), h1]
    rfl
  have hev : (sync_photo_to_photoprism db u pid eid now).db.photoprism_sync_events.find?
      (fun e => e.id == eid)
      = some (eventFailUpdate now msg (eventProcessingUpdate now (eventProcessingUpdate now
          (eventProcessingUpdate now
            { id := eid, photo_id := pid, instance_id := inst.id,
              event_type := .upload, event_status := .pending,
              payload := [("filename", photo.filename), ("file_path", photo.original_path)],
              created_at := now, updated_at := now })))) := by
    rw [hmain, hdb]
    simp only [dbUpdateEvent_events, dbUpdatePhoto_events]
    rw [find?_updateFirst (fun e => e.id == eid) (eventFailUpdate now msg) _ (fun x => rfl),
      find?_updateFirst (fun e => e.id == eid) (eventProcessingUpdate now) _ (fun x => rfl),
      find?_updateFirst (fun e => e.id == eid) (eventProcessingUpdate now) _ (fun x => rfl),
      find?_updateFirst (fun e => e.id == eid) (eventProcessingUpdate now) _ (fun x => rfl)]
    have hnone : db.photoprism_sync_events.find? (fun e => e.id == eid) = none :=
      List.find?_eq_none.2 (fun e he => by simp [hfresh e he])
    rw [List.find?_append, hnone]
    simp
  refine ⟨hok, hphoto, ?_, ?_, ?_⟩
  · rw [hphoto]; rfl
  · rw [hev]; rfl
  · rw [hev]; rfl

/-- C5, witness: the amended exhaustion theorem applied to the concrete
all-fail run. -/
theorem C5_exhaustion_witness :
    (exDB.photos.find? (fun p => p.id == "p1") = some exPhoto ∧
      (∀ n, n < max_retry_attempts → isOkUpload (exUploadsFail n) = false)) ∧
    (sync_photo_to_photoprism exDB exUploadsFail "p1" "e1" 100).ok = false ∧
    (sync_photo_to_photoprism exDB exUploadsFail "p1" "e1" 100).db.photos.find?
      (fun p => p.id == "p1") = some (photoFailUpdate 100 exPhoto) :=
  ⟨⟨by decide, by decide⟩,
    (C5_exhaustion exDB exUploadsFail "p1" "e1" 100 exPhoto exInstance
      (by decide) (by decide) (by decide) (by decide)).1,
    (C5_exhaustion exDB exUploadsFail "p1" "e1" 100 exPhoto exInstance
      (by decide) (by decide) (by decide) (by decide)).2.1⟩

/-! ### Claim C6 -/

/-- C6, counterexample: with a successfully fetched but EMPTY remote set,
the one local photo whose remote uuid `u1` is (vacuously) absent remotely
is NOT classified as orphaned-local - `if photoprism_photos:` is falsy for
the empty list, so classification is skipped and the orphan list is empty,
where the claim demands length 1. -/
theorem C6_counterexample :
    (exDB6.photos.map (fun p => p.photoprism_uuid)) = [some "u1"] ∧
    truthy (some "u1") = true ∧
    (reconcile_school_photos exDB6 (some []) "s1" true 5).2.error = none ∧
    (reconcile_school_photos exDB6 (some []) "s1" true 5).2.orphaned_yabook = [] ∧
    ¬ (reconcile_school_photos exDB6 (some []) "s1" true 5).2.orphaned_yabook.length = 1 := by
  decide

/-- A truthy optional string is `some` of its default-read value. -/
theorem truthy_some_getD (x : Option String) (h : truthy x = true) : x = some (x.getD "") := by
  cases x <;> simp_all [truthy]

/-- Membership in the remote uuid-map key set. -/
theorem mem_remoteUuids (rl : List RemotePhoto) (a : String) :
    a ∈ remoteUuids rl ↔ ∃ r, r ∈ rl ∧ truthy r.uuid = true ∧ r.uuid = some a := by
  simp [remoteUuids, List.mem_filterMap, List.mem_filter, and_assoc]

/-- Membership in the local uuid-map key set. -/
theorem mem_localUuids (photos : List Photo) (a : String) :
    a ∈ localUuids photos
      ↔ ∃ p, p ∈ photos ∧ truthy p.photoprism_uuid = true ∧ p.photoprism_uuid = some a := by
  simp [localUuids, List.mem_filterMap, List.mem_filter, and_assoc]

/-- The orphan lists of a reconcile run with a non-empty remote set, as
the code computes them. -/
theorem reconcile_orphans_eq (db : DB) (rl : List RemotePhoto) (sid : String)
    (dr : Bool) (now : Nat) (inst : PhotoPrismInstance)
    (hinst : db.photoprism_instances.find? (fun i =>
        i.school_id == sid && i.status == InstanceStatus.active) = some inst)
    (hne : rl ≠ []) :
    (reconcile_school_photos db (some rl) sid dr now).2.orphaned_yabook
      = ((db.photos.filter (fun p => p.school_id == sid)).filter (fun p =>
          truthy p.photoprism_uuid
            && !((remoteUuids rl).contains (p.photoprism_uuid.getD "")))).map
        (fun p => ⟨p.id, p.filename, p.photoprism_uuid.getD ""⟩) ∧
    (reconcile_school_photos db (some rl) sid dr now).2.orphaned_photoprism
      = (rl.filter (fun r =>
          truthy r.uuid
            && !((localUuids (db.photos.filter (fun p => p.school_id == sid))).contains
                (r.uuid.getD "")))).map
        (fun r => ⟨r.uuid.getD "", r.filename.getD "unknown"⟩) := by
  rcases rl with _ | ⟨r, rl'⟩
  · exact absurd rfl hne
  · simp only [reconcile_school_photos, hinst]
    exact ⟨rfl, rfl⟩

/-- C6, amended: when the remote fetch succeeds with a NON-EMPTY list,
orphaned-local is exactly the set of local photos of the tenant with a
truthy remote uuid that no truthy-uuid remote item carries, and
orphaned-remote is exactly the set of truthy-uuid remote items whose uuid
no truthy-uuid local photo of the tenant carries; when the fetch fails or
returns the empty list, no classification happens and both orphan lists
are empty. -/
theorem C6_orphan_classification (db : DB) (remote_list : List RemotePhoto) (sid : String)
    (dr : Bool) (now : Nat) (inst : PhotoPrismInstance)
    (hinst : db.photoprism_instances.find? (fun i =>
        i.school_id == sid && i.status == InstanceStatus.active) = some inst)
    (hne : remote_list ≠ []) :
    (∀ o : OrphanYabook,
      o ∈ (reconcile_school_photos db (some remote_list) sid dr now).2.orphaned_yabook ↔
        ∃ p, p ∈ db.photos ∧ p.school_id = sid ∧ truthy p.photoprism_uuid = true ∧
          o.id = p.id ∧ o.filename = p.filename ∧
          p.photoprism_uuid = some o.photoprism_uuid ∧
          ¬ ∃ r, r ∈ remote_list ∧ truthy r.uuid = true
              ∧ r.uuid = some o.photoprism_uuid) ∧
    (∀ o : OrphanPhotoprism,
      o ∈ (reconcile_school_photos db (some remote_list) sid dr now).2.orphaned_photoprism ↔
        ∃ r, r ∈ remote_list ∧ truthy r.uuid = true ∧ r.uuid = some o.uuid ∧
          o.filename = r.filename.getD "unknown" ∧
          ¬ ∃ p, p ∈ db.photos ∧ p.school_id = sid ∧ truthy p.photoprism_uuid = true
              ∧ p.photoprism_uuid = some o.uuid) ∧
    ((reconcile_school_photos db none sid dr now).2.orphaned_yabook = [] ∧
      (reconcile_school_photos db none sid dr now).2.orphaned_photoprism = [] ∧
      (reconcile_school_photos db (some []) sid dr now).2.orphaned_yabook = [] ∧
      (reconcile_school_photos db (some []) sid dr now).2.orphaned_photoprism = []) := by
  obtain ⟨hyb, hpp⟩ := reconcile_orphans_eq db remote_list sid dr now inst hinst hne
  refine ⟨?_, ?_, ?_⟩
  · intro o
    rw [hyb]
    constructor
    · intro h
      rcases List.mem_map.1 h with ⟨p, hpmem, ho⟩
      rcases List.mem_filter.1 hpmem with ⟨hp1, hq⟩
      rcases List.mem_filter.1 hp1 with ⟨hmem, hw⟩
      simp only [Bool.and_eq_true] at hq
      obtain ⟨ht, hnc⟩ := hq
      have hw' : p.school_id = sid := by simpa using hw
      have hsome : p.photoprism_uuid = some (p.photoprism_uuid.getD "") :=
        truthy_some_getD _ ht
      have hnc' : ¬ (p.photoprism_uuid.getD "") ∈ remoteUuids remote_list := by
        intro hcontra
        rw [Bool.not_eq_true'] at hnc
        simp [List.contains, List.elem_eq_mem, hcontra] at hnc
      subst ho
      refine ⟨p, hmem, hw', ht, rfl, rfl, hsome, ?_⟩
      intro hex
      exact hnc' ((mem_remoteUuids remote_list _).2 hex)
    · rintro ⟨p, hmem, hw', ht, hid, hfn, hsome, hnr⟩
      refine List.mem_map.2 ⟨p, ?_, ?_⟩
      · refine List.mem_filter.2 ⟨List.mem_filter.2 ⟨hmem, by simp [hw']⟩, ?_⟩
        simp only [Bool.and_eq_true]
        refine ⟨ht, ?_⟩
        rw [Bool.not_eq_true']
        have : ¬ (p.photoprism_uuid.getD "") ∈ remoteUuids remote_list := by
          intro hcontra
          rcases (mem_remoteUuids remote_list _).1 hcontra with ⟨r, hr, htr, hru⟩
          apply hnr
          refine ⟨r, hr, htr, ?_⟩
          rw [hru, hsome, Option.getD_some]
        simp [List.contains, List.elem_eq_mem, this]
      · have : p.photoprism_uuid.getD "" = o.photoprism_uuid := by
          rw [hsome, Option.getD_some]
        cases o
        simp_all
  · intro o
    rw [hpp]
    constructor
    · intro h
      rcases List.mem_map.1 h with ⟨r, hrmem, ho⟩
      rcases List.mem_filter.1 hrmem with ⟨hmem, hq⟩
      simp only [Bool.and_eq_true] at hq
      obtain ⟨ht, hnc⟩ := hq
      have hsome : r.uuid = some (r.uuid.getD "") := truthy_some_getD _ ht
      have hnc' : ¬ (r.uuid.getD "") ∈ localUuids
          (db.photos.filter (fun p => p.school_id == sid)) := by
        intro hcontra
        rw [Bool.not_eq_true'] at hnc
        simp [List.contains, List.elem_eq_mem, hcontra] at hnc
      subst ho
      refine ⟨r, hmem, ht, hsome, rfl, ?_⟩
      rintro ⟨p, hpmem, hpsid, hpt, hpu⟩
      apply hnc'
      refine (mem_localUuids _ _).2 ⟨p, List.mem_filter.2 ⟨hpmem, by simp [hpsid]⟩, hpt, hpu⟩
    · rintro ⟨r, hmem, ht, hsome, hfn, hnp⟩
      refine List.mem_map.2 ⟨r, ?_, ?_⟩
      · refine List.mem_filter.2 ⟨hmem, ?_⟩
        simp only [Bool.and_eq_true]
        refine ⟨ht, ?_⟩
        rw [Bool.not_eq_true']
        have : ¬ (r.uuid.getD "") ∈ localUuids
            (db.photos.filter (fun p => p.school_id == sid)) := by
          intro hcontra
          rcases (mem_localUuids _ _).1 hcontra with ⟨p, hp, hpt, hpu⟩
          rcases List.mem_filter.1 hp with ⟨hpmem, hpsid⟩
          apply hnp
          refine ⟨p, hpmem, by simpa using hpsid, hpt, ?_⟩
          rw [hpu]
          rw [hsome, Option.getD_some] at hpu ⊢
        simp [List.contains, List.elem_eq_mem, this]
      · have : r.uuid.getD "" = o.uuid := by
          rw [hsome, Option.getD_some]
        cases o
        simp_all
  · refine ⟨?_, ?_, ?_, ?_⟩ <;> simp [reconcile_school_photos, hinst]

/-- C6, witness: the claim's 10-local / 9-remote scenario: 2 orphaned
local photos and 1 orphaned remote item, with the classification theorem
applied to certify one of the orphans. -/
theorem C6_orphan_classification_witness :
    (exDB6w.photoprism_instances.find? (fun i =>
        i.school_id == "s1" && i.status == InstanceStatus.active) = some exInstance ∧
      exRemote6w ≠ []) ∧
    (reconcile_school_photos exDB6w (some exRemote6w) "s1" true 7).2.orphaned_yabook.length
      = 2 ∧
    (reconcile_school_photos exDB6w (some exRemote6w) "s1" true 7).2.orphaned_photoprism.length
      = 1 ∧
    (⟨"o1", "o1.jpg", "x1"⟩ : OrphanYabook)
      ∈ (reconcile_school_photos exDB6w (some exRemote6w) "s1" true 7).2.orphaned_yabook :=
  ⟨⟨by decide, by decide⟩, by decide, by decide,
    ((C6_orphan_classification exDB6w exRemote6w "s1" true 7 exInstance
        (by decide) (by decide)).1 ⟨"o1", "o1.jpg", "x1"⟩).2 (by decide)⟩

/-! ### Claim C7 -/

/-- The orphan reset is idempotent. -/
theorem orphanReset_idem (now : Nat) (p : Photo) :
    orphanResetUpdate now (orphanResetUpdate now p) = orphanResetUpdate now p := rfl

/-- One `update_one` against an id-Nodup photo list, followed by the
conditional reset for the remaining ids, equals the conditional reset for
all the ids at once. -/
theorem updateFirst_then_mapIf (now : Nat) (oid : String) (osIds : List String) :
    ∀ (l : List Photo), (l.map (·.id)).Nodup →
      (updateFirst (fun p => p.id == oid) (orphanResetUpdate now) l).map
        (fun p => if osIds.contains p.id then orphanResetUpdate now p else p)
      = l.map (fun p =>
          if (oid :: osIds).contains p.id then orphanResetUpdate now p else p) := by
  intro l
  induction l with
  | nil => intro _; rfl
  | cons x xs ih =>
    intro hnd
    simp only [List.map_cons, List.nodup_cons] at hnd
    obtain ⟨hx_not, hnd_tail⟩ := hnd
    by_cases hx : (x.id == oid) = true
    · have hxid : x.id = oid := by simpa using hx
      simp only [updateFirst, hx, if_true, List.map_cons]
      have hhead : (if osIds.contains (orphanResetUpdate now x).id then
            orphanResetUpdate now (orphanResetUpdate now x) else orphanResetUpdate now x)
          = (if (oid :: osIds).contains x.id then orphanResetUpdate now x else x) := by
        have hc : ((oid :: osIds).contains x.id) = true := by
          simp [List.contains_cons, hxid]
        rw [hc, if_pos rfl]
        by_cases h : osIds.contains (orphanResetUpdate now x).id = true
        · rw [if_pos h, orphanReset_idem]
        · rw [if_neg (by simpa using h)]
      rw [hhead]
      have htail : xs.map (fun p => if osIds.contains p.id then orphanResetUpdate now p else p)
          = xs.map (fun p =>
              if (oid :: osIds).contains p.id then orphanResetUpdate now p else p) := by
        apply List.map_congr_left
        intro q hq
        have hqid : q.id ≠ oid := by
          intro hcon
          exact hx_not (hxid ▸ hcon ▸ List.mem_map_of_mem (fun p => p.id) hq)
        have hbq : (q.id == oid) = false := by simpa using hqid
        simp [List.contains_cons, hbq, hqid]
      rw [htail]
    · have hxid : x.id ≠ oid := by simpa using hx
      simp only [updateFirst, hx, if_false, List.map_cons, Bool.false_eq_true]
      rw [ih hnd_tail]
      have hhead : (if osIds.contains x.id then orphanResetUpdate now x else x)
          = (if (oid :: osIds).contains x.id then orphanResetUpdate now x else x) := by
        have hbq : (x.id == oid) = false := by simpa using hxid
        simp [List.contains_cons, hbq, hxid]
      rw [hhead]

/-- The reconcile repair fold, against an id-Nodup photo list, is the
pointwise conditional reset over the orphan id set. -/
theorem foldl_updateFirst_mapIf (now : Nat) :
    ∀ (os : List OrphanYabook) (l : List Photo), (l.map (·.id)).Nodup →
      os.foldl (fun acc o =>
          updateFirst (fun p => p.id == o.id) (orphanResetUpdate now) acc) l
        = l.map (fun p =>
            if ((os.map (·.id)).contains p.id) then orphanResetUpdate now p else p) := by
  intro os
  induction os with
  | nil =>
    intro l _
    simp
  | cons o os ih =>
    intro l hl
    rw [List.foldl_cons]
    have h1 : ((updateFirst (fun p => p.id == o.id) (orphanResetUpdate now) l).map
        (·.id)).Nodup := by
      rw [updateFirst_map (fun (p : Photo) => p.id) (fun p => p.id == o.id)
        (orphanResetUpdate now) l (fun x => rfl)]
      exact hl
    rw [ih _ h1, updateFirst_then_mapIf now o.id (os.map (·.id)) l hl]
    simp only [List.map_cons]

/-- The DB-level repair fold only rewrites the photo collection. -/
theorem reconcileFold_photos_list (now : Nat) :
    ∀ (os : List OrphanYabook) (d : DB),
      ((os.foldl (fun d o =>
          { d with photos :=
              updateFirst (fun p => p.id == o.id) (orphanResetUpdate now) d.photos }) d).photos
        = os.foldl (fun acc o =>
            updateFirst (fun p => p.id == o.id) (orphanResetUpdate now) acc) d.photos) := by
  intro os
  induction os with
  | nil => intro d; rfl
  | cons o os ih => intro d; rw [List.foldl_cons, List.foldl_cons, ih]

/-- The DB-level repair fold leaves the event collection untouched. -/
theorem reconcileFold_events (now : Nat) :
    ∀ (os : List OrphanYabook) (d : DB),
      ((os.foldl (fun d o =>
          { d with photos :=
              updateFirst (fun p => p.id == o.id) (orphanResetUpdate now) d.photos }) d).photoprism_sync_events
        = d.photoprism_sync_events) := by
  intro os
  induction os with
  | nil => intro d; rfl
  | cons o os ih => intro d; rw [List.foldl_cons, ih]

/-- The DB-level repair fold leaves the instance collection untouched. -/
theorem reconcileFold_instances (now : Nat) :
    ∀ (os : List OrphanYabook) (d : DB),
      ((os.foldl (fun d o =>
          { d with photos :=
              updateFirst (fun p => p.id == o.id) (orphanResetUpdate now) d.photos }) d).photoprism_instances
        = d.photoprism_instances) := by
  intro os
  induction os with
  | nil => intro d; rfl
  | cons o os ih => intro d; rw [List.foldl_cons, ih]

/-- C7: `reconcile(dryRun=true)` performs zero writes (the store is
returned unchanged, under every orphan configuration); `reconcile` never
touches the instance or event collections; and `reconcile(dryRun=false)`
rewrites exactly the orphaned-local photos - each reset to PENDING with
`photoprism_uuid`/`photoprism_filename` cleared - and leaves every
non-orphaned photo untouched (remote items are only reported, the
function has no remote write channel). -/
theorem C7_reconcile_writes :
    (∀ (db : DB) (remote : Option (List RemotePhoto)) (sid : String) (now : Nat),
      (reconcile_school_photos db remote sid true now).1 = db) ∧
    (∀ (db : DB) (remote : Option (List RemotePhoto)) (sid : String) (dr : Bool) (now : Nat),
      (reconcile_school_photos db remote sid dr now).1.photoprism_instances
          = db.photoprism_instances ∧
        (reconcile_school_photos db remote sid dr now).1.photoprism_sync_events
          = db.photoprism_sync_events) ∧
    (∀ (db : DB) (remote : Option (List RemotePhoto)) (sid : String) (now : Nat),
      (db.photos.map (·.id)).Nodup →
      (reconcile_school_photos db remote sid false now).1.photos
        = db.photos.map (fun p =>
            if (((reconcile_school_photos db remote sid false
                  now).2.orphaned_yabook.map (·.id)).contains p.id)
            then orphanResetUpdate now p else p)) := by
  refine ⟨?_, ?_, ?_⟩
  · intro db remote sid now
    simp only [reconcile_school_photos]
    rcases hfind : db.photoprism_instances.find? (fun i =>
        i.school_id == sid && i.status == InstanceStatus.active) with _ | inst
    · simp [hfind]
    · rcases remote with _ | remote_list
      · simp [hfind]
      · cases remote_list with
        | nil => simp [hfind]
        | cons r rl => simp [hfind]
  · intro db remote sid dr now
    simp only [reconcile_school_photos]
    rcases hfind : db.photoprism_instances.find? (fun i =>
        i.school_id == sid && i.status == InstanceStatus.active) with _ | inst
    · simp [hfind]
    · rcases remote with _ | remote_list
      · simp [hfind]
      · cases remote_list with
        | nil => simp [hfind]
        | cons r rl =>
          cases dr with
          | true => simp [hfind]
          | false =>
            simp only [hfind]
            constructor
            · exact reconcileFold_instances now _ _
            · exact reconcileFold_events now _ _
  · intro db remote sid now hnd
    simp only [reconcile_school_photos]
    rcases hfind : db.photoprism_instances.find? (fun i =>
        i.school_id == sid && i.status == InstanceStatus.active) with _ | inst
    · simp [hfind]
    · rcases remote with _ | remote_list
      · simp [hfind]
      · cases remote_list with
        | nil => simp [hfind]
        | cons r rl =>
          simp only [hfind, List.isEmpty_cons, Bool.false_eq_true, if_false]
          rw [reconcileFold_photos_list, foldl_updateFirst_mapIf now _ _ hnd]

/-- C7, witness: the exactness equation applied to a store with one
orphaned photo and a non-empty remote set. -/
theorem C7_reconcile_writes_witness :
    ((exDB6.photos.map (·.id)).Nodup) ∧
    (reconcile_school_photos exDB6 (some [⟨some "z", some "f"⟩]) "s1" false 9).1.photos
      = exDB6.photos.map (fun p =>
          if (((reconcile_school_photos exDB6 (some [⟨some "z", some "f"⟩]) "s1" false
                9).2.orphaned_yabook.map (·.id)).contains p.id)
          then orphanResetUpdate 9 p else p) :=
  ⟨by decide,
    C7_reconcile_writes.2.2 exDB6 (some [⟨some "z", some "f"⟩]) "s1" 9 (by decide)⟩

/-! ### Claim C8 -/

/-- `==` on the status enum is decided propositional equality. -/
theorem statusBeq_eq_decide (a b : PhotoStatus) : (a == b) = decide (a = b) := rfl

/-- Dropping the zero-count groups does not change the total. -/
theorem sum_filter_ne_zero (l : List (PhotoStatus × Nat)) :
    ((l.filter (fun sc => sc.2 ≠ 0)).map (·.2)).sum = (l.map (·.2)).sum := by
  induction l with
  | nil => rfl
  | cons x xs ih =>
    rw [List.filter_cons]
    by_cases h : x.2 ≠ 0
    · rw [if_pos (by simpa using h)]
      simp only [List.map_cons, List.sum_cons]
      rw [ih]
    · have h0 : x.2 = 0 := by omega
      rw [if_neg (by simp [h0])]
      simp only [List.map_cons, List.sum_cons]
      rw [ih, h0, Nat.zero_add]

/-- The three status groups partition the school's photos. -/
theorem school_count_partition (photos : List Photo) (sid : String) :
    (photos.filter (fun p => p.school_id == sid)).length
      = (photos.filter (fun p =>
            p.school_id == sid && p.status == PhotoStatus.pending)).length
        + (photos.filter (fun p =>
            p.school_id == sid && p.status == PhotoStatus.synced)).length
        + (photos.filter (fun p =>
            p.school_id == sid && p.status == PhotoStatus.failed)).length := by
  induction photos with
  | nil => rfl
  | cons x xs ih =>
    by_cases hs : (x.school_id == sid) = true
    · cases hst : x.status <;>
        simp [List.filter_cons, hs, hst] <;> omega
    · simp only [Bool.not_eq_true] at hs
      simp [List.filter_cons, hs, ih]

/-- The group-by total equals the number of the school's photos. -/
theorem statusCounts_sum (photos : List Photo) (sid : String) :
    ((statusCounts photos sid).map (·.2)).sum
      = (photos.filter (fun p => p.school_id == sid)).length := by
  rw [statusCounts, sum_filter_ne_zero]
  simp only [List.map_cons, List.map_nil, List.sum_cons, List.sum_nil]
  have := school_count_partition photos sid
  omega

/-- Evaluation of `==` on concrete status constructors. -/
theorem bqPP : (PhotoStatus.pending == PhotoStatus.pending) = true := rfl

theorem bqPS : (PhotoStatus.pending == PhotoStatus.synced) = false := rfl

theorem bqPF : (PhotoStatus.pending == PhotoStatus.failed) = false := rfl

theorem bqSP : (PhotoStatus.synced == PhotoStatus.pending) = false := rfl

theorem bqSS : (PhotoStatus.synced == PhotoStatus.synced) = true := rfl

theorem bqSF : (PhotoStatus.synced == PhotoStatus.failed) = false := rfl

theorem bqFP : (PhotoStatus.failed == PhotoStatus.pending) = false := rfl

theorem bqFS : (PhotoStatus.failed == PhotoStatus.synced) = false := rfl

theorem bqFF : (PhotoStatus.failed == PhotoStatus.failed) = true := rfl

/-- Reading one group's count with default 0 yields that status's count
whether or not the (possibly empty) group is present. -/
theorem statusCounts_find (photos : List Photo) (sid : String) (s : PhotoStatus) :
    ((((statusCounts photos sid).find? (fun sc => sc.1 == s)).map (·.2)).getD 0)
      = (photos.filter (fun p => p.school_id == sid && p.status == s)).length := by
  cases s <;>
    (simp only [statusCounts, List.map_cons, List.map_nil, List.filter_cons, List.filter_nil]
     split_ifs with h1 h2 h3 <;>
     simp [List.find?, bqPP, bqPS, bqPF, bqSP, bqSS, bqSF, bqFP, bqFS, bqFF] <;>
     simp_all <;>
     (rw [eq_comm, List.length_eq_zero, List.filter_eq_nil_iff]
      simp only [Bool.and_eq_true, beq_iff_eq, not_and]
      assumption))

/-- C8, counterexample: `getSyncStatus("A")` reports a `last_sync` and an
`active_sync_jobs` taken from ANOTHER tenant's events: school `A` has no
events at all (every event belongs to school `B`'s photo `pB`), yet
`last_sync = 42` (B's success event) and `active_sync_jobs = 1` (B's
pending event) - the claim requires the tenant-scoped values `none`/`0`. -/
theorem C8_counterexample :
    ((exDB8.photos.filter (fun p => p.school_id == "A")).map (·.id)) = ["pA"] ∧
    (∀ e ∈ exDB8.photoprism_sync_events, e.photo_id = "pB") ∧
    ((exDB8.photos.find? (fun p => p.id == "pB")).map (·.school_id)) = some "B" ∧
    (get_sync_status exDB8 "A").last_sync = some 42 ∧
    ¬ (get_sync_status exDB8 "A").last_sync = none ∧
    (get_sync_status exDB8 "A").active_sync_jobs = 1 ∧
    ¬ (get_sync_status exDB8 "A").active_sync_jobs = 0 := by
  decide

/-- C8, amended: the photo counts are scoped to the tenant -
total/synced/pending/failed are the per-status counts of the school's
photos, and syncedPercentage is `round(synced/total*100, 2)` (0 when total
is 0) - but `lastSync` and `activeSyncJobs` are computed over the whole
event collection with NO tenant scoping: they are identical for every
queried tenant; `lastSync` is the greatest `updated_at` among all SUCCESS
events and `activeSyncJobs` counts all PENDING/PROCESSING events. -/
theorem C8_sync_status (db : DB) (sid : String) :
    (get_sync_status db sid).total_photos
      = (db.photos.filter (fun p => p.school_id == sid)).length ∧
    (get_sync_status db sid).synced_photos
      = (db.photos.filter (fun p =>
          p.school_id == sid && p.status == PhotoStatus.synced)).length ∧
    (get_sync_status db sid).pending_photos
      = (db.photos.filter (fun p =>
          p.school_id == sid && p.status == PhotoStatus.pending)).length ∧
    (get_sync_status db sid).failed_photos
      = (db.photos.filter (fun p =>
          p.school_id == sid && p.status == PhotoStatus.failed)).length ∧
    (∀ sid' : String,
      (get_sync_status db sid).last_sync = (get_sync_status db sid').last_sync ∧
      (get_sync_status db sid).active_sync_jobs = (get_sync_status db sid').active_sync_jobs) ∧
    (∀ t : Nat, (get_sync_status db sid).last_sync = some t →
      ∃ e, e ∈ db.photoprism_sync_events ∧ e.event_status = SyncEventStatus.success ∧
        e.updated_at = t ∧
        ∀ e', e' ∈ db.photoprism_sync_events → e'.event_status = SyncEventStatus.success →
          e'.updated_at ≤ t) ∧
    ((get_sync_status db sid).total_photos ≠ 0 →
      (get_sync_status db sid).sync_percentage
        = round2 (((get_sync_status db sid).synced_photos : ℚ)
            / ((get_sync_status db sid).total_photos : ℚ) * 100)) ∧
    ((get_sync_status db sid).total_photos = 0 →
      (get_sync_status db sid).sync_percentage = 0) := by
  refine ⟨?_, ?_, ?_, ?_, fun sid' => ⟨rfl, rfl⟩, ?_, ?_, ?_⟩
  · rw [show (get_sync_status db sid).total_photos
        = ((statusCounts db.photos sid).map (·.2)).sum from rfl, statusCounts_sum]
  · exact statusCounts_find db.photos sid PhotoStatus.synced
  · exact statusCounts_find db.photos sid PhotoStatus.pending
  · exact statusCounts_find db.photos sid PhotoStatus.failed
  · intro t ht
    have ht' : ((db.photoprism_sync_events.filter (fun e =>
        e.event_status == SyncEventStatus.success)).map (·.updated_at)).max? = some t := ht
    have hmem := List.max?_mem (fun a b => max_choice a b) ht'
    have hle := fun x hx => (List.max?_le_iff (fun a b c => max_le_iff) ht').1 (le_refl t) x hx
    rcases List.mem_map.1 hmem with ⟨e, he, het⟩
    rcases List.mem_filter.1 he with ⟨hemem, hestat⟩
    refine ⟨e, hemem, by simpa [statusBeq_eq_decide] using hestat, het, ?_⟩
    intro e' he' hstat'
    exact hle _ (List.mem_map_of_mem _ (List.mem_filter.2 ⟨he',
      by simp [statusBeq_eq_decide, hstat']⟩))
  · intro h
    rw [show (get_sync_status db sid).sync_percentage
        = (if (get_sync_status db sid).total_photos > 0 then
            round2 (((get_sync_status db sid).synced_photos : ℚ)
              / ((get_sync_status db sid).total_photos : ℚ) * 100)
          else 0) from rfl, if_pos (Nat.pos_of_ne_zero h)]
  · intro h
    rw [show (get_sync_status db sid).sync_percentage
        = (if (get_sync_status db sid).total_photos > 0 then
            round2 (((get_sync_status db sid).synced_photos : ℚ)
              / ((get_sync_status db sid).total_photos : ℚ) * 100)
          else 0) from rfl, h]
    simp

/-- C8, witness: the count and percentage parts applied to the
10-photo/6-synced scenario store, giving `syncedPercentage = 60`. -/
theorem C8_sync_status_witness :
    (get_sync_status exDB8w "s1").total_photos = 10 ∧
    (get_sync_status exDB8w "s1").synced_photos = 6 ∧
    (get_sync_status exDB8w "s1").total_photos ≠ 0 ∧
    (get_sync_status exDB8w "s1").sync_percentage
      = round2 (((get_sync_status exDB8w "s1").synced_photos : ℚ)
          / ((get_sync_status exDB8w "s1").total_photos : ℚ) * 100) ∧
    (get_sync_status exDB8w "s1").sync_percentage = 60 := by
  refine ⟨by decide, by decide, by decide,
    (C8_sync_status exDB8w "s1").2.2.2.2.2.2.1 (by decide), ?_⟩
  have hs : (get_sync_status exDB8w "s1").synced_photos = 6 := by decide
  have ht : (get_sync_status exDB8w "s1").total_photos = 10 := by decide
  have hp : (get_sync_status exDB8w "s1").sync_percentage
      = (if (get_sync_status exDB8w "s1").total_photos > 0 then
          round2 (((get_sync_status exDB8w "s1").synced_photos : ℚ)
            / ((get_sync_status exDB8w "s1").total_photos : ℚ) * 100)
        else 0) := rfl
  rw [hp, hs, ht]
  norm_num [round2]

/-! ### Claim C9 -/

/-- Skipping a non-matching head entry in a dict lookup. -/
theorem dictLookup_cons_ne (x : String × Bool) (m : List (String × Bool)) (q : String)
    (h : (x.1 == q) = false) : dictLookup (x :: m) q = dictLookup m q := by
  simp [dictLookup, List.find?, h]

/-- Dict assignment followed by lookup. -/
theorem dictLookup_dictInsert (k : String) (v : Bool) (q : String) :
    ∀ (m : List (String × Bool)),
      dictLookup (dictInsert k v m) q = if q = k then some v else dictLookup m q := by
  intro m
  induction m with
  | nil =>
    by_cases h : q = k
    · subst h; simp [dictInsert, dictLookup, List.find?]
    · have hb : (k == q) = false := beq_eq_false_iff_ne.2 (fun hh => h hh.symm)
      simp [dictInsert, dictLookup, List.find?, h, hb]
  | cons x xs ih =>
    obtain ⟨xk, xv⟩ := x
    simp only [dictInsert]
    by_cases hx : (xk == k) = true
    · rw [if_pos hx]
      by_cases h : q = k
      · subst h; simp [dictLookup, List.find?]
      · have hxk : xk = k := by simpa using hx
        have hb1 : (k == q) = false := beq_eq_false_iff_ne.2 (fun hh => h hh.symm)
        have hb2 : (xk == q) = false := by rw [hxk]; exact hb1
        rw [if_neg h, dictLookup_cons_ne ⟨k, v⟩ xs q hb1, dictLookup_cons_ne ⟨xk, xv⟩ xs q hb2]
    · rw [if_neg hx]
      have hx' : (xk == k) = false := by simpa using hx
      by_cases h : q = k
      · subst h
        rw [dictLookup_cons_ne ⟨xk, xv⟩ _ _ hx', ih]
        simp
      · by_cases hq : (xk == q) = true
        · simp [dictLookup, List.find?, hq, h]
        · have hq' : (xk == q) = false := by simpa using hq
          rw [dictLookup_cons_ne ⟨xk, xv⟩ _ _ hq', ih, if_neg h, if_neg h,
            dictLookup_cons_ne ⟨xk, xv⟩ xs q hq']

/-- A task that completed normally keeps its entry in the gathered result
dict, whatever the other tasks did (raised or not). -/
theorem gather_mem (outcome : String → TaskOutcome) (pid : String) (b : Bool)
    (hok : outcome pid = .ok b) :
    ∀ (ids : List String) (acc : List (String × Bool)),
      (pid ∈ ids ∨ dictLookup acc pid = some b) →
      dictLookup (ids.foldl (fun acc pid =>
        match outcome pid with
        | .ok b => dictInsert pid b acc
        | .exn _ => acc) acc) pid = some b := by
  intro ids
  induction ids with
  | nil =>
    intro acc h
    rcases h with h | h
    · exact absurd h (List.not_mem_nil pid)
    · exact h
  | cons x xs ih =>
    intro acc h
    rw [List.foldl_cons]
    rcases hx : outcome x with b' | m
    · simp only [hx]
      apply ih
      by_cases hxq : pid = x
      · subst hxq
        right
        rw [dictLookup_dictInsert, if_pos rfl]
        rw [hx] at hok
        cases hok
        rfl
      · rcases h with h | h
        · rcases List.mem_cons.1 h with h1 | h1
          · exact absurd h1 hxq
          · exact Or.inl h1
        · right
          rw [dictLookup_dictInsert, if_neg hxq]
          exact h
    · simp only [hx]
      apply ih
      rcases h with h | h
      · rcases List.mem_cons.1 h with h1 | h1
        · subst h1
          rw [hx] at hok
          cases hok
        · exact Or.inl h1
      · exact Or.inr h

/-- The batch result dict's key set is exactly the processed ids plus the
accumulator's keys. -/
theorem batchFold_keys (u : String → Nat → UploadOutcome) (eids : String → String)
    (now : Nat) :
    ∀ (ids : List String) (acc : DB × List (String × Bool)) (q : String),
      ((dictLookup (ids.foldl (fun acc pid =>
          let out := sync_photo_to_photoprism acc.1 (u pid) pid (eids pid) now
          (out.db, dictInsert pid out.ok acc.2)) acc).2 q).isSome = true)
        ↔ q ∈ ids ∨ ((dictLookup acc.2 q).isSome = true) := by
  intro ids
  induction ids with
  | nil => intro acc q; simp
  | cons x xs ih =>
    intro acc q
    rw [List.foldl_cons, ih]
    by_cases h : q = x
    · subst h
      simp [dictLookup_dictInsert]
    · rw [dictLookup_dictInsert, if_neg h]
      simp [List.mem_cons, h]

/-- C9: the map `batch_sync_photos` returns has one entry per input photo
id (its key set is exactly the input id set), and a task whose sync
completed normally keeps its own result entry regardless of what the other
tasks returned or raised - one photo's failure or unexpected exception
never removes or changes another's entry. -/
theorem C9_batch_isolation (db : DB) (u : String → Nat → UploadOutcome)
    (eids : String → String) (now : Nat) (photo_ids : List String)
    (outcome : String → TaskOutcome) (pid : String) (b : Bool)
    (hmem : pid ∈ photo_ids) (hok : outcome pid = .ok b) :
    (∀ q : String,
      ((dictLookup (batch_sync_photos db u eids now photo_ids).2 q).isSome = true)
        ↔ q ∈ photo_ids) ∧
    dictLookup (gather_results photo_ids outcome) pid = some b := by
  constructor
  · intro q
    simp only [batch_sync_photos]
    rw [batchFold_keys]
    simp [dictLookup]
  · simp only [gather_results]
    exact gather_mem outcome pid b hok photo_ids [] (Or.inl hmem)

/-- C9, witness: a two-photo batch where the second task raises: the first
photo's entry is present with its own result. -/
theorem C9_batch_isolation_witness :
    ("p1" ∈ ["p1", "p2"]) ∧
    ((fun i => if i = "p1" then TaskOutcome.ok true else TaskOutcome.exn "boom") "p1"
      = TaskOutcome.ok true) ∧
    ((dictLookup (batch_sync_photos exDB (fun _ => exUploadsOk) (fun i => i ++ "-e") 100
        ["p1", "p2"]).2 "p1").isSome = true) ∧
    dictLookup (gather_results ["p1", "p2"]
        (fun i => if i = "p1" then TaskOutcome.ok true else TaskOutcome.exn "boom")) "p1"
      = some true :=
  ⟨by decide, by decide,
    ((C9_batch_isolation exDB (fun _ => exUploadsOk) (fun i => i ++ "-e") 100 ["p1", "p2"]
        (fun i => if i = "p1" then TaskOutcome.ok true else TaskOutcome.exn "boom") "p1" true
        (by decide) (by decide)).1 "p1").mpr (by decide),
    (C9_batch_isolation exDB (fun _ => exUploadsOk) (fun i => i ++ "-e") 100 ["p1", "p2"]
        (fun i => if i = "p1" then TaskOutcome.ok true else TaskOutcome.exn "boom") "p1" true
        (by decide) (by decide)).2⟩

/-! ### Claim C10 -/

/-- C10: when a client is already cached for the tenant,
`get_instance_for_school` returns the cached adapter and leaves the
registry unchanged, ignoring the config argument entirely (any two configs
give the same result); after `remove_instance`, the next lookup constructs
the adapter from the supplied config. -/
theorem C10_registry_cache (m : PhotoPrismInstanceManager) (school_id : String)
    (kv : String × PhotoPrismAdapter) (cfg cfg' : InstanceConfig)
    (h : m._instances.find? (fun kv => kv.1 == school_id) = some kv) :
    get_instance_for_school m school_id cfg = (kv.2, m) ∧
    get_instance_for_school m school_id cfg = get_instance_for_school m school_id cfg' ∧
    (get_instance_for_school (remove_instance m school_id) school_id cfg).1
      = mkAdapter cfg := by
  have h1 : get_instance_for_school m school_id cfg = (kv.2, m) := by
    simp [get_instance_for_school, h]
  have h2 : get_instance_for_school m school_id cfg' = (kv.2, m) := by
    simp [get_instance_for_school, h]
  have h3 : ((remove_instance m school_id)._instances.find?
      (fun kv => kv.1 == school_id)) = none := by
    apply List.find?_eq_none.2
    intro x hx
    rcases List.mem_filter.1 hx with ⟨_, hxn⟩
    simpa using hxn
  exact ⟨h1, h1.trans h2.symm, by simp [get_instance_for_school, h3]⟩

/-- C10, witness: the cached-registry theorem applied to a one-entry
registry and a changed config. -/
theorem C10_registry_cache_witness :
    exManager._instances.find? (fun kv => kv.1 == "s1") = some ("s1", exAdapter) ∧
    get_instance_for_school exManager "s1" exNewConfig = (exAdapter, exManager) ∧
    (get_instance_for_school (remove_instance exManager "s1") "s1" exNewConfig).1
      = mkAdapter exNewConfig :=
  ⟨by decide,
    (C10_registry_cache exManager "s1" ("s1", exAdapter) exNewConfig exNewConfig
      (by decide)).1,
    (C10_registry_cache exManager "s1" ("s1", exAdapter) exNewConfig exNewConfig
      (by decide)).2.2⟩

end Yabook

